import Mathlib

/-!
Verification of the SupplierCheck-UK core pipeline.

This file gives a shallow embedding, in Lean 4, of the deterministic core of
the repository: the fetch cache (packages/db/src/cache.ts), the dossier
normalizers, sorters and builder (packages/core/src/dossier/*), and the risk
flag engine (packages/core/src/riskFlags/*).  Each definition is translated
from the corresponding TypeScript source function; theorems then settle the
specification claims about those functions.

Modelling conventions, used consistently below:
  - JavaScript strings are Lean `String`; `a.localeCompare(b)` is modelled as
    the signum comparison of the underlying linear order on `String`
    (the repository only compares ASCII identifiers, dates and names);
  - machine integers (HTTP statuses, millisecond timestamps, counts) are
    `Nat`, with explicit `% 2 ^ 32` arithmetic inside the SHA-256 model;
  - `Buffer` bodies are `List Nat` byte lists;
  - `undefined` optional fields are `Option`; JavaScript truthiness of an
    optional string (`undefined` and the empty string are falsy) is `jsTruthy`;
  - the stateful sqlite cache table is an explicit `List CacheEntry` passed in
    and returned; `Date.now()` is an explicit `now : Nat` argument;
  - a JavaScript stable `Array.prototype.sort` with a consistent comparator
    `c` is modelled as `List.insertionSort (fun a b => c a b ≤ 0)`, which is
    stable and sorted for exactly the same total preorder.
-/

/-- Lexicographic three-way comparison of character lists by codepoint. -/
def lexCmpChars : List Char → List Char → Int
  | [], [] => 0
  | [], _ :: _ => -1
  | _ :: _, [] => 1
  | a :: as, b :: bs =>
    if a.toNat < b.toNat then -1
    else if b.toNat < a.toNat then 1
    else lexCmpChars as bs

/-- Signum comparison modelling `a.localeCompare(b)` on JavaScript strings:
negative when `a` orders before `b`, zero when equal, positive otherwise.
The repository compares ASCII identifiers, ISO dates and upstream names, for
which the locale collation coincides with codepoint order. -/
def strCmp (a b : String) : Int :=
  lexCmpChars a.data b.data

/-- Models the JavaScript expression `opt || fallback` on an optional string:
`undefined` and the empty string are falsy and select the fallback. -/
def jsOr (a : Option String) (fallback : String) : String :=
  match a with
  | none => fallback
  | some s => if s = "" then fallback else s

/-- JavaScript truthiness of an optional string: `undefined` and `""` are
falsy, every other string is truthy. -/
def jsTruthy (a : Option String) : Bool :=
  match a with
  | none => false
  | some s => s ≠ ""

/-- Models JavaScript `str.split(sep)` for a single-character separator, at
the character-list level: `"" ↦ [""]`, consecutive separators produce empty
segments, and leading/trailing separators produce empty boundary segments. -/
def splitOnChar (sep : Char) : List Char → List (List Char)
  | [] => [[]]
  | c :: rest =>
    match splitOnChar sep rest with
    | [] => [[c]]
    | w :: ws => if c = sep then [] :: w :: ws else (c :: w) :: ws

/-- Joins character-list segments with a single separator character,
modelling JavaScript `parts.join(sep)`. -/
def joinWith (sep : Char) : List (List Char) → List Char
  | [] => []
  | [w] => w
  | w :: ws => w ++ sep :: joinWith sep ws

/-! ### SHA-256

Model of node `crypto.createHash('sha256')...digest('hex')`, used by the
cache key function and the evidence id function.  Words are `Nat` reduced
modulo `2 ^ 32`. -/

/-- Reduce a natural number to a 32-bit word. -/
def w32 (n : Nat) : Nat := n % 4294967296

/-- Right rotation of a 32-bit word by `n` bits. -/
def rotr32 (n x : Nat) : Nat := w32 ((x >>> n) ||| (x <<< (32 - n)))

/-- SHA-256 choice function. -/
def shaCh (x y z : Nat) : Nat := (x &&& y) ^^^ ((x ^^^ 4294967295) &&& z)

/-- SHA-256 majority function. -/
def shaMaj (x y z : Nat) : Nat := (x &&& y) ^^^ (x &&& z) ^^^ (y &&& z)

/-- SHA-256 big sigma 0. -/
def bigSigma0 (x : Nat) : Nat := rotr32 2 x ^^^ rotr32 13 x ^^^ rotr32 22 x

/-- SHA-256 big sigma 1. -/
def bigSigma1 (x : Nat) : Nat := rotr32 6 x ^^^ rotr32 11 x ^^^ rotr32 25 x

/-- SHA-256 small sigma 0. -/
def smallSigma0 (x : Nat) : Nat := rotr32 7 x ^^^ rotr32 18 x ^^^ (x >>> 3)

/-- SHA-256 small sigma 1. -/
def smallSigma1 (x : Nat) : Nat := rotr32 17 x ^^^ rotr32 19 x ^^^ (x >>> 10)

/-- The 64 SHA-256 round constants. -/
def shaK : List Nat :=
  [116352408, 1899447441, 3049323471, 3921009573, 961987163,
   1508970993, 2453635748, 2870763221, 3624381080, 310598401,
   607225278, 1426881987, 1925078388, 2162078206, 2614888103,
   3248222580, 3835390401, 4022224774, 264347078, 604807628,
   770255983, 1249150122, 1555081692, 1996064986, 2554220882,
   2821834349, 2952996808, 3210313671, 3336571891, 3584528711,
   113926993, 338241895, 666307205, 773529912, 1294757372,
   1396182291, 1695183700, 1986661051, 2177026350, 2456956037,
   2730485921, 2820302411, 3259730800, 3345764771, 3516065817,
   3600352804, 4094571909, 275423344, 430227734, 506948616,
   659060556, 883997877, 958139571, 1322822218, 1537002063,
   1747873779, 1955562222, 2024104815, 2227730452, 2361852424,
   2428436474, 2756734187, 3204031479, 3329325298]

/-- The initial SHA-256 hash state. -/
def shaH0 : List Nat :=
  [779033703, 3144134277, 1013904242, 2773480762,
   1359893119, 2600822924, 528734635, 1541459225]

/-- Big-endian byte encoding of a number into a fixed number of bytes. -/
def toBytesBE : Nat → Nat → List Nat
  | 0, _ => []
  | width + 1, n => toBytesBE width (n >>> 8) ++ [n % 256]

/-- SHA-256 message padding: append the `0x80` marker, zero bytes up to 56
modulo 64, then the 64-bit big-endian bit length. -/
def padMessage (msg : List Nat) : List Nat :=
  let len := msg.length
  let zeros := (119 - len % 64) % 64
  msg ++ [128] ++ List.replicate zeros 0 ++ toBytesBE 8 (len * 8)

/-- Split a byte list into 64-byte chunks. -/
def chunks64 (l : List Nat) : List (List Nat) :=
  if h : l = [] then [] else l.take 64 :: chunks64 (l.drop 64)
termination_by l.length
decreasing_by
  simp only [List.length_drop]
  have := List.length_pos.mpr h
  omega

/-- Interpret a byte list as big-endian 32-bit words. -/
def bytesToWords : List Nat → List Nat
  | b0 :: b1 :: b2 :: b3 :: rest =>
    (((b0 * 256 + b1) * 256 + b2) * 256 + b3) :: bytesToWords rest
  | _ => []

/-- One step of the SHA-256 message-schedule extension. -/
def extendStep (w : List Nat) : List Nat :=
  let n := w.length
  w ++ [w32 (w.getD (n - 16) 0 + smallSigma0 (w.getD (n - 15) 0) +
             w.getD (n - 7) 0 + smallSigma1 (w.getD (n - 2) 0))]

/-- Extend the 16 chunk words to the 64-entry message schedule. -/
def schedule (w : List Nat) : List Nat :=
  (List.range 48).foldl (fun acc _ => extendStep acc) w

/-- One SHA-256 compression round over the 8-word working state. -/
def shaRound (st : List Nat) (wk : Nat × Nat) : List Nat :=
  let a := st.getD 0 0
  let b := st.getD 1 0
  let c := st.getD 2 0
  let d := st.getD 3 0
  let e := st.getD 4 0
  let f := st.getD 5 0
  let g := st.getD 6 0
  let h := st.getD 7 0
  let t1 := w32 (h + bigSigma1 e + shaCh e f g + wk.2 + wk.1)
  let t2 := w32 (bigSigma0 a + shaMaj a b c)
  [w32 (t1 + t2), a, b, c, w32 (d + t1), e, f, g]

/-- Process one 64-byte chunk into the running hash state. -/
def processChunk (st : List Nat) (chunk : List Nat) : List Nat :=
  let ws := schedule (bytesToWords chunk)
  let st2 := (ws.zip shaK).foldl shaRound st
  (st.zip st2).map fun p => w32 (p.1 + p.2)

/-- The eight 32-bit result words of SHA-256 over a byte list. -/
def sha256Words (msg : List Nat) : List Nat :=
  (chunks64 (padMessage msg)).foldl processChunk shaH0

/-- Lowercase hexadecimal digit for a value below 16. -/
def hexDigitChar (n : Nat) : Char :=
  if n < 10 then Char.ofNat (48 + n) else Char.ofNat (87 + n)

/-- Fixed-width lowercase hexadecimal rendering of a number. -/
def toHexFixed : Nat → Nat → List Char
  | 0, _ => []
  | width + 1, n => toHexFixed width (n / 16) ++ [hexDigitChar (n % 16)]

/-- Lowercase hex digest string of SHA-256 over a byte list, modelling
`createHash('sha256').update(data).digest('hex')`. -/
def sha256Hex (msg : List Nat) : String :=
  String.mk ((sha256Words msg).map (toHexFixed 8)).flatten

/-- UTF-8 bytes of a string, as fed to `hash.update(data)`. -/
def strBytes (s : String) : List Nat :=
  s.toUTF8.toList.map UInt8.toNat

/-! ### Fetch cache (packages/db/src/cache.ts)

The sqlite table `cache_entries` is modelled as a `List CacheEntry`; the
statements `SELECT ... WHERE cache_key = ? AND expires_at > ?` and
`INSERT OR REPLACE` become explicit list operations.  `Date.now()` is the
explicit `now` argument (milliseconds).  The supplied fetch function is
modelled by the value it would produce when invoked: `Except.error e` for a
throw/rejection, `Except.ok r` for a resolution (with any HTTP status). -/

/-- Parameters of `generateCacheKey` (cache.ts lines 43-50). -/
structure CacheKeyParams where
  source : String
  request : String
  url : String
deriving DecidableEq

/-- A fetch request (cache.ts `FetchRequest`). -/
structure FetchRequest where
  source : String
  request : String
  url : String
  ttlSeconds : Nat
  headers : Option (List (String × String)) := none
deriving DecidableEq

/-- What the supplied fetch function resolves with (cache.ts
`FetchFunction` result). -/
structure UpstreamResponse where
  status : Nat
  body : List Nat
  contentType : String
deriving DecidableEq

/-- A response returned by the cache (cache.ts `FetchResponse`). -/
structure FetchResponse where
  status : Nat
  body : List Nat
  contentType : String
  cacheKey : String
  hit : Bool
deriving DecidableEq

/-- A row of the `cache_entries` table (cache.ts `CacheEntry`). -/
structure CacheEntry where
  cache_key : String
  source : String
  request : String
  url : String
  status : Nat
  body : List Nat
  content_type : String
  headers : Option String
  created_at : Nat
  expires_at : Nat
deriving DecidableEq

/-- Deterministic cache key from request parameters (cache.ts
`generateCacheKey`): the SHA-256 hex digest of `source:request:url`. -/
def generateCacheKey (params : CacheKeyParams) : String :=
  sha256Hex (strBytes (params.source ++ ":" ++ params.request ++ ":" ++ params.url))

/-- The cache key `Cache.getOrFetchRaw` computes for a request: only the
`(source, request, url)` triple is passed to `generateCacheKey`. -/
def requestCacheKey (params : FetchRequest) : String :=
  generateCacheKey { source := params.source, request := params.request, url := params.url }

/-- Compact `JSON.stringify` of a header record, as stored in the `headers`
column by `setCacheEntry`.  Header names and values in this repository are
plain ASCII tokens, so escaping is the identity on them. -/
def headersJson (hs : List (String × String)) : String :=
  "\x7b" ++ String.intercalate "," (hs.map fun p => "\"" ++ p.1 ++ "\":\"" ++ p.2 ++ "\"") ++ "\x7d"

/-- Lookup of a non-expired entry (cache.ts `getCacheEntry`): the row with
the given key whose `expires_at` is strictly in the future. -/
def getCacheEntry (store : List CacheEntry) (cacheKey : String) (now : Nat) : Option CacheEntry :=
  store.find? fun e => e.cache_key == cacheKey && decide (now < e.expires_at)

/-- Parameters of `setCacheEntry` (cache.ts lines 143-175). -/
structure SetCacheParams where
  cacheKey : String
  source : String
  request : String
  url : String
  status : Nat
  body : List Nat
  contentType : String
  headers : Option String
  ttlSeconds : Nat

/-- Store an entry with TTL (cache.ts `setCacheEntry`): `INSERT OR REPLACE`
keyed by the primary key `cache_key`, with `expires_at = now + ttl * 1000`. -/
def setCacheEntry (store : List CacheEntry) (params : SetCacheParams) (now : Nat) : List CacheEntry :=
  store.filter (fun e => e.cache_key ≠ params.cacheKey) ++
    [{ cache_key := params.cacheKey
       source := params.source
       request := params.request
       url := params.url
       status := params.status
       body := params.body
       content_type := params.contentType
       headers := params.headers
       created_at := now
       expires_at := now + params.ttlSeconds * 1000 }]

/-- Result of one `getOrFetchRaw` call: the response or propagated error,
the cache store afterwards, and whether the fetch function was invoked. -/
structure FetchOut where
  result : Except String FetchResponse
  store : List CacheEntry
  invoked : Bool

/-- One call of `Cache.getOrFetchRaw` (cache.ts lines 79-123): check for a
valid cache entry; on hit return the stored bytes verbatim with `hit = true`
without invoking the fetch function; on miss invoke the fetch function — a
throw propagates and writes nothing, a resolution (any status) is stored via
`setCacheEntry` and returned with `hit = false`. -/
def getOrFetchRaw (store : List CacheEntry) (params : FetchRequest) (now : Nat)
    (fetchResult : Except String UpstreamResponse) : FetchOut :=
  let cacheKey := requestCacheKey params
  match getCacheEntry store cacheKey now with
  | some cached =>
    { result := Except.ok
        { status := cached.status, body := cached.body, contentType := cached.content_type
          cacheKey := cacheKey, hit := true }
      store := store, invoked := false }
  | none =>
    match fetchResult with
    | Except.error e => { result := Except.error e, store := store, invoked := true }
    | Except.ok response =>
      let store2 := setCacheEntry store
        { cacheKey := cacheKey, source := params.source, request := params.request
          url := params.url, status := response.status, body := response.body
          contentType := response.contentType
          headers := params.headers.map headersJson
          ttlSeconds := params.ttlSeconds } now
      { result := Except.ok
          { status := response.status, body := response.body
            contentType := response.contentType, cacheKey := cacheKey, hit := false }
        store := store2, invoked := true }

/-- Remove expired entries (cache.ts `cleanExpired`): deletes rows with
`expires_at <= now` and returns the number removed. -/
def cleanExpired (store : List CacheEntry) (now : Nat) : List CacheEntry × Nat :=
  let kept := store.filter fun e => decide (now < e.expires_at)
  (kept, store.length - kept.length)

/-! ### Connector response types (dossier/connector-types.ts)

Fields that no embedded function reads (addresses on officer items,
identification blocks, etags, pagination links and similar) are omitted from
the raw-response records; every field read by the normalizers, the builder or
the risk rules is present under its source name. -/

/-- Companies House address (connector-types `CompaniesHouseAddress`). -/
structure CompaniesHouseAddress where
  address_line_1 : Option String := none
  address_line_2 : Option String := none
  care_of : Option String := none
  country : Option String := none
  locality : Option String := none
  po_box : Option String := none
  postal_code : Option String := none
  premises : Option String := none
  region : Option String := none
deriving DecidableEq

/-- Date of birth as returned by Companies House: the day is optional and
the month and year are required (connector-types `DateOfBirth`). -/
structure DateOfBirth where
  day : Option Nat := none
  month : Nat
  year : Nat
deriving DecidableEq

/-- The `next_accounts` block of a company profile. -/
structure NextAccounts where
  due_on : Option String := none
  overdue : Option Bool := none
deriving DecidableEq

/-- The `accounts` block of a company profile. -/
structure AccountsInfo where
  next_accounts : Option NextAccounts := none
  overdue : Option Bool := none
deriving DecidableEq

/-- The `confirmation_statement` block of a company profile. -/
structure ConfirmationStatementInfo where
  next_due : Option String := none
  overdue : Option Bool := none
deriving DecidableEq

/-- Company profile response (connector-types `CompanyProfileResponse`). -/
structure CompanyProfileResponse where
  accounts : Option AccountsInfo := none
  can_file : Bool
  company_name : String
  company_number : String
  company_status : String
  confirmation_statement : Option ConfirmationStatementInfo := none
  date_of_creation : Option String := none
  has_been_liquidated : Option Bool := none
  has_insolvency_history : Option Bool := none
  links_self : String
  registered_office_address : Option CompaniesHouseAddress := none
  sic_codes : Option (List String) := none
  type : String
deriving DecidableEq

/-- A raw officer list item (connector-types `OfficerItem`). -/
structure OfficerItem where
  appointed_on : Option String := none
  date_of_birth : Option DateOfBirth := none
  name : String
  nationality : Option String := none
  officer_role : String
  resigned_on : Option String := none
deriving DecidableEq

/-- Officers list response (connector-types `OfficersResponse`). -/
structure OfficersResponse where
  items : List OfficerItem
  items_per_page : Nat
  kind : String
  links_self : String
  start_index : Nat
  total_results : Nat
deriving DecidableEq

/-- A raw PSC list item (connector-types `PSCItem`). -/
structure PSCItem where
  ceased_on : Option String := none
  name : Option String := none
  nationality : Option String := none
  natures_of_control : Option (List String) := none
  notified_on : Option String := none
deriving DecidableEq

/-- Links block of the PSC response; the optional statements link drives
risk rule F5. -/
structure PSCLinks where
  persons_with_significant_control_statements : Option String := none
  self : String
deriving DecidableEq

/-- PSC list response (connector-types `PSCsResponse`). -/
structure PSCsResponse where
  items : List PSCItem
  items_per_page : Nat
  kind : String
  links : PSCLinks
  start_index : Nat
  total_results : Nat
deriving DecidableEq

/-- Evidence of one upstream call (connector-types `Evidence`). -/
structure Evidence where
  apiUrl : String
  publicUrl : Option String := none
  fetchedAt : String
  fromCache : Bool
deriving DecidableEq

/-- Evidence with its stable id (types.ts `EvidenceWithId`). -/
structure EvidenceWithId where
  id : String
  apiUrl : String
  publicUrl : Option String := none
  fetchedAt : String
  fromCache : Bool
deriving DecidableEq

/-- Match strategy of a registry row (connector-types `RegistryEvidence`). -/
inductive MatchMethod where
  | company_number
  | normalized_name
deriving DecidableEq

/-- Evidence row of a Modern Slavery Registry lookup. -/
structure RegistryEvidence where
  csvUrl : String
  year : Nat
  rowIndex : Option Nat := none
  matchMethod : MatchMethod
deriving DecidableEq

/-- Modern Slavery Registry lookup result (connector-types
`ModernSlaveryRegistryResult`). -/
structure ModernSlaveryRegistryResult where
  found : Bool
  latestYear : Option Nat := none
  statementSummaryUrl : Option String := none
  evidence : List RegistryEvidence
deriving DecidableEq

/-! ### Domain types (connector-types.ts, domain section) -/

/-- Canonical address (connector-types `Address`). -/
structure Address where
  line1 : String
  line2 : Option String := none
  town : String
  postcode : String
  country : String
deriving DecidableEq

/-- Canonical officer (connector-types `Officer`). -/
structure Officer where
  name : String
  role : String
  appointedOn : String
  resignedOn : Option String := none
  nationality : String
  birthMonth : Option Nat := none
  birthYear : Option Nat := none
deriving DecidableEq

/-- Canonical PSC (connector-types `PSC`). -/
structure PSC where
  name : String
  natureOfControl : List String
  notifiedOn : String
  ceasedOn : Option String := none
  nationality : String
deriving DecidableEq

/-- Flag severity (connector-types `FlagSeverity` string enum). -/
inductive FlagSeverity where
  | HIGH
  | MEDIUM
  | LOW
  | INFO
deriving DecidableEq

/-- The serialized form of a severity, as in the string enum. -/
def FlagSeverity.text : FlagSeverity → String
  | .HIGH => "HIGH"
  | .MEDIUM => "MEDIUM"
  | .LOW => "LOW"
  | .INFO => "INFO"

/-- A risk flag (connector-types `RiskFlag`). -/
structure RiskFlag where
  id : String
  title : String
  severity : FlagSeverity
  explanation : String
  evidenceUrl : Option String := none
deriving DecidableEq

/-- A modern slavery statement (connector-types `ModernSlaveryStatement`). -/
structure ModernSlaveryStatement where
  url : String
  signedBy : String
  dateSigned : String
  compliant : Bool
deriving DecidableEq

/-- Canonical company (connector-types `Company`). -/
structure Company where
  companyNumber : String
  name : String
  status : String
  type : String
  incorporationDate : String
  registeredOffice : Address
  sicCodes : List String
deriving DecidableEq

/-- The dossier document (connector-types `Dossier`). -/
structure Dossier where
  company : Company
  officers : List Officer
  pscs : List PSC
  riskFlags : List RiskFlag
  modernSlavery : Option ModernSlaveryStatement := none
  generatedAt : String
deriving DecidableEq

/-- Evidence from each connector call, as grouped inside `DossierInput`. -/
structure DossierEvidence where
  profile : Evidence
  officers : Evidence
  pscs : Evidence
deriving DecidableEq

/-- Raw data from connectors (types.ts `DossierInput`). -/
structure DossierInput where
  profile : CompanyProfileResponse
  officers : OfficersResponse
  pscs : PSCsResponse
  modernSlavery : ModernSlaveryRegistryResult
  evidence : DossierEvidence
deriving DecidableEq

/-! ### Normalizers (dossier/normalizers.ts) -/

/-- Normalize a Companies House address (normalizers.ts `normalizeAddress`):
`line1` prefers the explicit address line, falling back to `premises`; a
missing address yields the all-empty address. -/
def normalizeAddress (addr : Option CompaniesHouseAddress) : Address :=
  { line1 := jsOr (addr.bind (·.address_line_1)) (jsOr (addr.bind (·.premises)) "")
    line2 := addr.bind (·.address_line_2)
    town := jsOr (addr.bind (·.locality)) ""
    postcode := jsOr (addr.bind (·.postal_code)) ""
    country := jsOr (addr.bind (·.country)) "" }

/-- Comparator-induced order on strings used by every `localeCompare` sort. -/
def strLE (a b : String) : Prop := strCmp a b ≤ 0

instance : DecidableRel strLE :=
  fun a b => inferInstanceAs (Decidable (strCmp a b ≤ 0))

/-- Sort SIC codes (sort.ts `sortSicCodes`): lexicographic, not numeric. -/
def sortSicCodes (codes : List String) : List String :=
  codes.insertionSort strLE

/-- Sort natures of control (sort.ts `sortNaturesOfControl`). -/
def sortNaturesOfControl (natures : List String) : List String :=
  natures.insertionSort strLE

/-- Normalize a company profile (normalizers.ts `normalizeCompany`). -/
def normalizeCompany (profile : CompanyProfileResponse) : Company :=
  { companyNumber := profile.company_number
    name := profile.company_name
    status := profile.company_status
    type := profile.type
    incorporationDate := jsOr profile.date_of_creation ""
    registeredOffice := normalizeAddress profile.registered_office_address
    sicCodes := sortSicCodes (profile.sic_codes.getD []) }

/-- Capitalize the first character of a word, leaving the rest unchanged:
the JavaScript `word.charAt(0).toUpperCase() + word.slice(1)`. -/
def capFirst : List Char → List Char
  | [] => []
  | c :: cs => c.toUpper :: cs

/-- Humanize an officer role (normalizers.ts `normalizeOfficerRole`): split
on `-`, capitalize the first character of each segment, join with spaces. -/
def normalizeOfficerRole (role : String) : String :=
  String.mk (joinWith ' ' ((splitOnChar '-' role.data).map capFirst))

/-- Normalize a raw officer item (normalizers.ts `normalizeOfficer`): the
returned record carries only the birth month and year, never the day. -/
def normalizeOfficer (item : OfficerItem) : Officer :=
  { name := item.name
    role := normalizeOfficerRole item.officer_role
    appointedOn := jsOr item.appointed_on ""
    resignedOn := item.resigned_on
    nationality := jsOr item.nationality ""
    birthMonth := item.date_of_birth.map (·.month)
    birthYear := item.date_of_birth.map (·.year) }

/-- Normalize all officers (normalizers.ts `normalizeOfficers`). -/
def normalizeOfficers (response : OfficersResponse) : List Officer :=
  response.items.map normalizeOfficer

/-- Normalize a raw PSC item (normalizers.ts `normalizePSC`). -/
def normalizePSC (item : PSCItem) : PSC :=
  { name := jsOr item.name ""
    natureOfControl := sortNaturesOfControl (item.natures_of_control.getD [])
    notifiedOn := jsOr item.notified_on ""
    ceasedOn := item.ceased_on
    nationality := jsOr item.nationality "" }

/-- Normalize all PSCs (normalizers.ts `normalizePSCs`). -/
def normalizePSCs (response : PSCsResponse) : List PSC :=
  response.items.map normalizePSC

/-- Normalize a Modern Slavery Registry result (normalizers.ts
`normalizeModernSlavery`): absent unless `found`; when found only the url is
carried over and the statement is assumed compliant. -/
def normalizeModernSlavery (result : ModernSlaveryRegistryResult) :
    Option ModernSlaveryStatement :=
  if !result.found then none
  else some
    { url := jsOr result.statementSummaryUrl ""
      signedBy := ""
      dateSigned := ""
      compliant := true }

/-! ### Sorters (dossier/sort.ts) -/

/-- Stable string comparison handling `undefined` by sorting it last
(sort.ts `compareStrings`). -/
def compareStrings : Option String → Option String → Int
  | none, none => 0
  | none, some _ => 1
  | some _, none => -1
  | some a, some b => strCmp a b

/-- The officer comparator of `sortOfficers`: appointment date, then name,
then role. -/
def compareOfficers (a b : Officer) : Int :=
  let dateCompare := compareStrings (some a.appointedOn) (some b.appointedOn)
  if dateCompare ≠ 0 then dateCompare
  else
    let nameCompare := strCmp a.name b.name
    if nameCompare ≠ 0 then nameCompare
    else strCmp a.role b.role

/-- The total preorder induced by the officer comparator. -/
def officerLE (a b : Officer) : Prop := compareOfficers a b ≤ 0

instance : DecidableRel officerLE :=
  fun a b => inferInstanceAs (Decidable (compareOfficers a b ≤ 0))

/-- Sort officers with stable ordering (sort.ts `sortOfficers`). -/
def sortOfficers (officers : List Officer) : List Officer :=
  officers.insertionSort officerLE

/-- The PSC comparator of `sortPSCs`: notified-on date, then name, then
first nature of control. -/
def comparePSCs (a b : PSC) : Int :=
  let dateCompare := compareStrings (some a.notifiedOn) (some b.notifiedOn)
  if dateCompare ≠ 0 then dateCompare
  else
    let nameCompare := strCmp a.name b.name
    if nameCompare ≠ 0 then nameCompare
    else strCmp (a.natureOfControl.headD "") (b.natureOfControl.headD "")

/-- The total preorder induced by the PSC comparator. -/
def pscLE (a b : PSC) : Prop := comparePSCs a b ≤ 0

instance : DecidableRel pscLE :=
  fun a b => inferInstanceAs (Decidable (comparePSCs a b ≤ 0))

/-- Sort PSCs with stable ordering (sort.ts `sortPSCs`). -/
def sortPSCs (pscs : List PSC) : List PSC :=
  pscs.insertionSort pscLE

/-! ### Evidence ids (dossier/evidence.ts) -/

/-- Stable evidence id (evidence.ts `generateEvidenceId`): SHA-256 hex of
the url, truncated to 12 characters. -/
def generateEvidenceId (url : String) : String :=
  (sha256Hex (strBytes url)).take 12

/-- Attach the stable id to an evidence record (evidence.ts
`addEvidenceId`). -/
def addEvidenceId (evidence : Evidence) : EvidenceWithId :=
  { id := generateEvidenceId evidence.apiUrl
    apiUrl := evidence.apiUrl
    publicUrl := evidence.publicUrl
    fetchedAt := evidence.fetchedAt
    fromCache := evidence.fromCache }

/-! ### Dossier builder (dossier/builder.ts) -/

/-- Order on evidence records by stable id, used by the builder. -/
def evidenceLE (a b : EvidenceWithId) : Prop := strCmp a.id b.id ≤ 0

instance : DecidableRel evidenceLE :=
  fun a b => inferInstanceAs (Decidable (strCmp a.id b.id ≤ 0))

/-- Result of building a dossier (builder.ts `DossierResult`). -/
structure DossierResult where
  dossier : Dossier
  evidence : List EvidenceWithId
deriving DecidableEq

/-- Build a deterministic dossier (builder.ts `buildDossier`).  The optional
`generatedAt` argument and the wall-clock reading `now` feed the JavaScript
expression `generatedAt || new Date().toISOString()`; everything else is a
pure function of `input`. -/
def buildDossier (input : DossierInput) (generatedAt : Option String) (now : String) :
    DossierResult :=
  let company := normalizeCompany input.profile
  let officers := sortOfficers (normalizeOfficers input.officers)
  let pscs := sortPSCs (normalizePSCs input.pscs)
  let modernSlavery := normalizeModernSlavery input.modernSlavery
  let evidenceList :=
    ([addEvidenceId input.evidence.profile,
      addEvidenceId input.evidence.officers,
      addEvidenceId input.evidence.pscs]).insertionSort evidenceLE
  { dossier :=
      { company := company
        officers := officers
        pscs := pscs
        riskFlags := []
        modernSlavery := modernSlavery
        generatedAt := jsOr generatedAt now }
    evidence := evidenceList }

/-! ### Dossier serialization (builder.ts `serializeDossier`)

`JSON.stringify(dossier, null, 2)` on the fixed dossier shape: two-space
indentation, insertion-order keys, members whose value is `undefined`
omitted. -/

/-- JSON escaping of one character, as `JSON.stringify` performs it. -/
def jsonEscapeChar (c : Char) : String :=
  if c = Char.ofNat 34 then "\\\""
  else if c = Char.ofNat 92 then "\\\\"
  else if c = Char.ofNat 8 then "\\b"
  else if c = Char.ofNat 9 then "\\t"
  else if c = Char.ofNat 10 then "\\n"
  else if c = Char.ofNat 12 then "\\f"
  else if c = Char.ofNat 13 then "\\r"
  else if c.toNat < 32 then "\\u00" ++ String.mk (toHexFixed 2 c.toNat)
  else String.mk [c]

/-- A JSON string literal with escaping. -/
def jsonQuote (s : String) : String :=
  "\"" ++ String.join (s.data.map jsonEscapeChar) ++ "\""

/-- Two spaces of indentation per nesting level. -/
def jsonIndent (lvl : Nat) : String :=
  String.mk (List.replicate (lvl * 2) ' ')

/-- Multi-line block layout shared by JSON objects and arrays under
`JSON.stringify(v, null, 2)`. -/
def jsonBlock (openB closeB : String) (lvl : Nat) (items : List String) : String :=
  match items with
  | [] => openB ++ closeB
  | _ =>
    openB ++ "\n" ++
      String.intercalate (",\n") (items.map fun it => jsonIndent (lvl + 1) ++ it) ++
      "\n" ++ jsonIndent lvl ++ closeB

/-- A JSON object at nesting level `lvl` from already-rendered field values. -/
def jsonObj (lvl : Nat) (fields : List (String × String)) : String :=
  jsonBlock ("\x7b") ("\x7d") lvl (fields.map fun f => jsonQuote f.1 ++ ": " ++ f.2)

/-- A JSON array at nesting level `lvl` from already-rendered elements. -/
def jsonArr (lvl : Nat) (elems : List String) : String :=
  jsonBlock ("[") ("]") lvl elems

/-- An optional object member: omitted entirely when the value is
`undefined`, as `JSON.stringify` does. -/
def optField (name : String) (v : Option String) : List (String × String) :=
  match v with
  | none => []
  | some r => [(name, r)]

/-- Serialized address. -/
def addressJson (lvl : Nat) (a : Address) : String :=
  jsonObj lvl
    ([("line1", jsonQuote a.line1)] ++
     optField ("line2") (a.line2.map jsonQuote) ++
     [("town", jsonQuote a.town), ("postcode", jsonQuote a.postcode),
      ("country", jsonQuote a.country)])

/-- Serialized officer. -/
def officerJson (lvl : Nat) (o : Officer) : String :=
  jsonObj lvl
    ([("name", jsonQuote o.name), ("role", jsonQuote o.role),
      ("appointedOn", jsonQuote o.appointedOn)] ++
     optField ("resignedOn") (o.resignedOn.map jsonQuote) ++
     [("nationality", jsonQuote o.nationality)] ++
     optField ("birthMonth") (o.birthMonth.map toString) ++
     optField ("birthYear") (o.birthYear.map toString))

/-- Serialized PSC. -/
def pscJson (lvl : Nat) (p : PSC) : String :=
  jsonObj lvl
    ([("name", jsonQuote p.name),
      ("natureOfControl", jsonArr (lvl + 1) (p.natureOfControl.map jsonQuote)),
      ("notifiedOn", jsonQuote p.notifiedOn)] ++
     optField ("ceasedOn") (p.ceasedOn.map jsonQuote) ++
     [("nationality", jsonQuote p.nationality)])

/-- Serialized company. -/
def companyJson (lvl : Nat) (c : Company) : String :=
  jsonObj lvl
    [("companyNumber", jsonQuote c.companyNumber), ("name", jsonQuote c.name),
     ("status", jsonQuote c.status), ("type", jsonQuote c.type),
     ("incorporationDate", jsonQuote c.incorporationDate),
     ("registeredOffice", addressJson (lvl + 1) c.registeredOffice),
     ("sicCodes", jsonArr (lvl + 1) (c.sicCodes.map jsonQuote))]

/-- Serialized risk flag. -/
def riskFlagJson (lvl : Nat) (f : RiskFlag) : String :=
  jsonObj lvl
    ([("id", jsonQuote f.id), ("title", jsonQuote f.title),
      ("severity", jsonQuote f.severity.text),
      ("explanation", jsonQuote f.explanation)] ++
     optField ("evidenceUrl") (f.evidenceUrl.map jsonQuote))

/-- Serialized modern slavery statement. -/
def modernSlaveryJson (lvl : Nat) (m : ModernSlaveryStatement) : String :=
  jsonObj lvl
    [("url", jsonQuote m.url), ("signedBy", jsonQuote m.signedBy),
     ("dateSigned", jsonQuote m.dateSigned),
     ("compliant", if m.compliant then "true" else "false")]

/-- Serialize a dossier to deterministic JSON (builder.ts
`serializeDossier`): `JSON.stringify(dossier, null, 2)`. -/
def serializeDossier (d : Dossier) : String :=
  jsonObj 0
    ([("company", companyJson 1 d.company),
      ("officers", jsonArr 1 (d.officers.map (officerJson 2))),
      ("pscs", jsonArr 1 (d.pscs.map (pscJson 2))),
      ("riskFlags", jsonArr 1 (d.riskFlags.map (riskFlagJson 2)))] ++
     optField ("modernSlavery") (d.modernSlavery.map (modernSlaveryJson 1)) ++
     [("generatedAt", jsonQuote d.generatedAt)])

/-- Determinism self-check (builder.ts `verifyDeterminism`): serialize twice
and compare. -/
def verifyDeterminism (d : Dossier) : Bool :=
  serializeDossier d == serializeDossier d

/-! ### Date model for rule F6

The engine builds `Date` values only inside `subtractMonths` and
`isWithinWindow` (riskFlags/rules.ts).  Dates are modelled as epoch
milliseconds in UTC; the accepted string shapes are the two the pipeline
produces, `YYYY-MM-DD` and `YYYY-MM-DDTHH:MM:SS(.sss)Z`.  An unparsable
string behaves like an invalid `Date`: every comparison on it is false. -/

/-- Parse a non-empty all-digit character run. -/
def digitsToNat? (cs : List Char) : Option Nat :=
  if cs ≠ [] ∧ cs.all Char.isDigit then
    some (cs.foldl (fun acc c => acc * 10 + (c.toNat - 48)) 0)
  else none

/-- Days from the civil epoch 1970-01-01 for year/month/day; a day beyond
the end of the month rolls over into the following month, exactly as the
JavaScript `Date` setters do. -/
def daysFromCivil (y m : Int) (d : Nat) : Int :=
  let yy : Int := y - (if m ≤ 2 then 1 else 0)
  let era : Int := Int.fdiv yy 400
  let yoe : Int := yy - era * 400
  let mp : Int := if 3 ≤ m then m - 3 else m + 9
  let doy : Int := (153 * mp + 2) / 5 + (d : Int) - 1
  let doe : Int := yoe * 365 + yoe / 4 - yoe / 100 + doy
  era * 146097 + doe - 719468

/-- Parse a `YYYY-MM-DD` date part. -/
def parseYmd? (cs : List Char) : Option (Nat × Nat × Nat) :=
  match splitOnChar '-' cs with
  | [ys, ms, ds] => do
    let y ← digitsToNat? ys
    let m ← digitsToNat? ms
    let d ← digitsToNat? ds
    if 1 ≤ m ∧ m ≤ 12 ∧ 1 ≤ d ∧ d ≤ 31 then some (y, m, d) else none
  | _ => none

/-- Parse a `HH:MM:SS(.sss)Z` time part into milliseconds of the day. -/
def parseTimeMs? (cs : List Char) : Option Nat :=
  match splitOnChar ':' cs with
  | [hs, ms, rest] =>
    if rest.getLast? = some 'Z' then
      match splitOnChar '.' rest.dropLast with
      | [ss] => do
        let h ← digitsToNat? hs
        let mi ← digitsToNat? ms
        let sec ← digitsToNat? ss
        if h ≤ 23 ∧ mi ≤ 59 ∧ sec ≤ 59 then
          some (((h * 60 + mi) * 60 + sec) * 1000)
        else none
      | [ss, frac] => do
        let h ← digitsToNat? hs
        let mi ← digitsToNat? ms
        let sec ← digitsToNat? ss
        let msv ← digitsToNat? frac
        if h ≤ 23 ∧ mi ≤ 59 ∧ sec ≤ 59 ∧ frac.length = 3 then
          some ((((h * 60 + mi) * 60 + sec) * 1000) + msv)
        else none
      | _ => none
    else none
  | _ => none

/-- Parse a date string to epoch milliseconds (`new Date(str).getTime()` for
the shapes the pipeline produces); `none` models an invalid date. -/
def parseDate? (s : String) : Option Int :=
  match splitOnChar 'T' s.data with
  | [d] => do
    let ymd ← parseYmd? d
    some (daysFromCivil (ymd.1 : Int) (ymd.2.1 : Int) ymd.2.2 * 86400000)
  | [d, t] => do
    let ymd ← parseYmd? d
    let ms ← parseTimeMs? t
    some (daysFromCivil (ymd.1 : Int) (ymd.2.1 : Int) ymd.2.2 * 86400000 + ms)
  | _ => none

/-- Shift a civil date back by a number of months, keeping the day and the
time of day, with day overflow rolling into the next month: the model of
`date.setMonth(date.getMonth() - months)`. -/
def shiftMonthsBack (y m d : Nat) (msOfDay : Nat) (months : Nat) : Int :=
  let m0 : Int := (m : Int) - 1 - (months : Int)
  let y2 : Int := (y : Int) + Int.fdiv m0 12
  let m2 : Int := Int.emod m0 12
  daysFromCivil y2 (m2 + 1) d * 86400000 + (msOfDay : Int)

/-- The model of rules.ts `subtractMonths`: parse, then shift the month
component; `none` models an invalid date. -/
def subtractMonths? (dateStr : String) (months : Nat) : Option Int :=
  match splitOnChar 'T' dateStr.data with
  | [d] => do
    let ymd ← parseYmd? d
    some (shiftMonthsBack ymd.1 ymd.2.1 ymd.2.2 0 months)
  | [d, t] => do
    let ymd ← parseYmd? d
    let ms ← parseTimeMs? t
    some (shiftMonthsBack ymd.1 ymd.2.1 ymd.2.2 ms months)
  | _ => none

/-- The model of rules.ts `isWithinWindow`: date within the inclusive
window; any invalid date makes every comparison false. -/
def isWithinWindow (dateStr : String) (windowStart windowEnd : Option Int) : Bool :=
  match parseDate? dateStr, windowStart, windowEnd with
  | some t, some ws, some we => decide (ws ≤ t ∧ t ≤ we)
  | _, _, _ => false

/-! ### Risk flag rules F1-F7 (riskFlags/rules.ts) -/

/-- Input for the risk flags engine (riskFlags/types.ts `RiskFlagsInput`). -/
structure RiskFlagsInput where
  dossier : Dossier
  rawInput : DossierInput
  referenceDate : String
deriving DecidableEq

/-- Configuration for the officer changes rule (riskFlags/types.ts
`OfficerChangesConfig`). -/
structure OfficerChangesConfig where
  lookbackMonths : Nat
  threshold : Nat
deriving DecidableEq

/-- Models the JavaScript strict comparison `x === true` on an optional
boolean field. -/
def optTrue (o : Option Bool) : Bool := o == some true

/-- F1: company status is not `active` (severity HIGH). -/
def checkF1StatusNotActive (input : RiskFlagsInput) : Option RiskFlag :=
  let status := input.dossier.company.status
  let profileEvidence := input.rawInput.evidence.profile
  if status ≠ "active" then
    some { id := "F1", title := "Company not active", severity := .HIGH
           explanation := "Company status is \"" ++ status ++
             "\". The company is not currently active and may not be able to fulfil obligations."
           evidenceUrl := profileEvidence.publicUrl }
  else none

/-- F2: accounts overdue, on either the overall flag or `next_accounts`
(severity MEDIUM). -/
def checkF2AccountsOverdue (input : RiskFlagsInput) : Option RiskFlag :=
  let profile := input.rawInput.profile
  let profileEvidence := input.rawInput.evidence.profile
  let accountsOverdue :=
    optTrue (profile.accounts.bind (·.overdue)) ||
    optTrue ((profile.accounts.bind (·.next_accounts)).bind (·.overdue))
  if accountsOverdue then
    let dueDate := (profile.accounts.bind (·.next_accounts)).bind (·.due_on)
    let dueDateInfo :=
      if jsTruthy dueDate then " (due: " ++ dueDate.getD "" ++ ")" else ""
    some { id := "F2", title := "Accounts overdue", severity := .MEDIUM
           explanation := "The company has overdue accounts" ++ dueDateInfo ++
             ". This may indicate financial difficulties or poor governance."
           evidenceUrl := profileEvidence.publicUrl }
  else none

/-- F3: confirmation statement overdue (severity MEDIUM). -/
def checkF3ConfirmationStatementOverdue (input : RiskFlagsInput) : Option RiskFlag :=
  let profile := input.rawInput.profile
  let profileEvidence := input.rawInput.evidence.profile
  if optTrue (profile.confirmation_statement.bind (·.overdue)) then
    let nextDue := profile.confirmation_statement.bind (·.next_due)
    let dueInfo :=
      if jsTruthy nextDue then " (due: " ++ nextDue.getD "" ++ ")" else ""
    some { id := "F3", title := "Confirmation statement overdue", severity := .MEDIUM
           explanation := "The company has an overdue confirmation statement" ++ dueInfo ++
             ". This is a legal requirement and may indicate poor governance."
           evidenceUrl := profileEvidence.publicUrl }
  else none

/-- F4: insolvency indicator present (severity HIGH). -/
def checkF4InsolvencyIndicator (input : RiskFlagsInput) : Option RiskFlag :=
  let profile := input.rawInput.profile
  let profileEvidence := input.rawInput.evidence.profile
  let hasInsolvencyHistory := optTrue profile.has_insolvency_history
  let hasBeenLiquidated := optTrue profile.has_been_liquidated
  if hasInsolvencyHistory || hasBeenLiquidated then
    let indicators :=
      (if hasInsolvencyHistory then ["insolvency history"] else []) ++
      (if hasBeenLiquidated then ["liquidation history"] else [])
    some { id := "F4", title := "Insolvency indicator", severity := .HIGH
           explanation := "The company has " ++ String.intercalate " and " indicators ++
             ". This indicates significant financial distress."
           evidenceUrl := profileEvidence.publicUrl }
  else none

/-- F5: no active PSC and no PSC-statements link (severity HIGH). -/
def checkF5PSCMissing (input : RiskFlagsInput) : Option RiskFlag :=
  let pscs := input.dossier.pscs
  let rawPscs := input.rawInput.pscs
  let pscsEvidence := input.rawInput.evidence.pscs
  let activePSCs := pscs.filter fun psc => !(jsTruthy psc.ceasedOn)
  let hasStatementsLink := jsTruthy rawPscs.links.persons_with_significant_control_statements
  if activePSCs.length = 0 && !hasStatementsLink then
    some { id := "F5", title := "PSC missing", severity := .HIGH
           explanation := "The company has no active Persons with Significant Control (PSCs) and no valid statement explaining why. This is a legal requirement."
           evidenceUrl := pscsEvidence.publicUrl }
  else none

/-- F6: at least `threshold` officer appointments plus resignations within
the lookback window ending at the reference date (severity MEDIUM). -/
def checkF6FrequentOfficerChanges (input : RiskFlagsInput)
    (config : Option OfficerChangesConfig) : Option RiskFlag :=
  let cfg := config.getD { lookbackMonths := 12, threshold := 3 }
  let officers := input.dossier.officers
  let officersEvidence := input.rawInput.evidence.officers
  let windowEnd := parseDate? input.referenceDate
  let windowStart := subtractMonths? input.referenceDate cfg.lookbackMonths
  let appointmentsInWindow :=
    (officers.filter fun o =>
      decide (o.appointedOn ≠ "") && isWithinWindow o.appointedOn windowStart windowEnd).length
  let resignationsInWindow :=
    (officers.filter fun o =>
      jsTruthy o.resignedOn && isWithinWindow (o.resignedOn.getD "") windowStart windowEnd).length
  let totalChanges := appointmentsInWindow + resignationsInWindow
  if cfg.threshold ≤ totalChanges then
    some { id := "F6", title := "Frequent officer changes", severity := .MEDIUM
           explanation := toString totalChanges ++ " officer changes in the last " ++
             toString cfg.lookbackMonths ++ " months (" ++ toString appointmentsInWindow ++
             " appointments, " ++ toString resignationsInWindow ++
             " resignations). This may indicate instability."
           evidenceUrl := officersEvidence.publicUrl }
  else none

/-- F7: active company with no modern slavery statement (severity MEDIUM);
non-active companies are exempt. -/
def checkF7ModernSlaveryMissing (input : RiskFlagsInput) : Option RiskFlag :=
  let profileEvidence := input.rawInput.evidence.profile
  if input.dossier.company.status ≠ "active" then none
  else
    match input.dossier.modernSlavery with
    | none =>
      some { id := "F7", title := "Modern slavery statement missing", severity := .MEDIUM
             explanation := "No modern slavery statement found. Large companies (turnover > £36M) are legally required to publish one annually."
             evidenceUrl := profileEvidence.publicUrl }
    | some _ => none

/-! ### Risk flag engine (riskFlags/engine.ts) -/

/-- Engine configuration (engine.ts `RiskFlagsEngineConfig`). -/
structure RiskFlagsEngineConfig where
  officerChanges : Option OfficerChangesConfig := none
deriving DecidableEq

/-- The default engine configuration (engine.ts `DEFAULT_CONFIG`). -/
def defaultEngineConfig : RiskFlagsEngineConfig :=
  { officerChanges := some { lookbackMonths := 12, threshold := 3 } }

/-- Order on risk flags by id, used for the stable output ordering. -/
def flagLE (a b : RiskFlag) : Prop := strCmp a.id b.id ≤ 0

instance : DecidableRel flagLE :=
  fun a b => inferInstanceAs (Decidable (strCmp a.id b.id ≤ 0))

/-- Result of computing risk flags (riskFlags/types.ts
`RiskFlagsResult`). -/
structure RiskFlagsResult where
  flags : List RiskFlag
deriving DecidableEq

/-- Compute risk flags (engine.ts `computeRiskFlags`): run the seven rules,
drop the ones that did not fire, sort by id. -/
def computeRiskFlags (dossier : Dossier) (rawInput : DossierInput)
    (referenceDate : String) (config : RiskFlagsEngineConfig) : RiskFlagsResult :=
  let input : RiskFlagsInput :=
    { dossier := dossier, rawInput := rawInput, referenceDate := referenceDate }
  let potentialFlags : List (Option RiskFlag) :=
    [checkF1StatusNotActive input,
     checkF2AccountsOverdue input,
     checkF3ConfirmationStatementOverdue input,
     checkF4InsolvencyIndicator input,
     checkF5PSCMissing input,
     checkF6FrequentOfficerChanges input config.officerChanges,
     checkF7ModernSlaveryMissing input]
  { flags := (potentialFlags.filterMap id).insertionSort flagLE }

/-- Apply computed risk flags (engine.ts `applyRiskFlags`): a new dossier
with the flags re-sorted by id; the original dossier is not modified. -/
def applyRiskFlags (dossier : Dossier) (flags : List RiskFlag) : Dossier :=
  { dossier with riskFlags := flags.insertionSort flagLE }

/-- Build a dossier with risk flags in one step (engine.ts
`buildDossierWithRiskFlags`). -/
def buildDossierWithRiskFlags (dossier : Dossier) (rawInput : DossierInput)
    (referenceDate : String) (config : RiskFlagsEngineConfig) : Dossier :=
  applyRiskFlags dossier (computeRiskFlags dossier rawInput referenceDate config).flags

/-! ### Specification-side definition for the role humanization

The spec describes `normalize_officer` role handling as: replace every `-`
with a space and title-case (capitalize) each word.  The following direct
rendering of those words is compared against the source translation
`normalizeOfficerRole` in the refinement theorem for that claim. -/

/-- One pass over the characters: a `-` becomes a space and starts a new
word; the first character of each word is capitalized. -/
def specTitleCasePass : Bool → List Char → List Char
  | _, [] => []
  | atWordStart, c :: cs =>
    if c = '-' then ' ' :: specTitleCasePass true cs
    else (if atWordStart then c.toUpper else c) :: specTitleCasePass false cs

/-- The humanized role as the spec words it: every `-` replaced by a space
and each word capitalized. -/
def specHumanizeRole (role : String) : String :=
  String.mk (specTitleCasePass true role.data)

/-! ### Concrete sample values used by witnesses and counterexamples -/

/-- A sample evidence record. -/
def sampleEvidence : Evidence :=
  { apiUrl := "https://api.example/company/1"
    publicUrl := some "https://public.example/company/1"
    fetchedAt := "2024-01-15T10:00:00.000Z"
    fromCache := false }

/-- A minimal company profile with the given status. -/
def sampleProfile (status : String) : CompanyProfileResponse :=
  { can_file := true
    company_name := "TEST COMPANY LTD"
    company_number := "TEST123"
    company_status := status
    date_of_creation := some "2020-01-01"
    links_self := "/company/TEST123"
    type := "ltd" }

/-- A minimal dossier input with the given company status, no officers, no
PSCs, no statements link and no modern slavery statement. -/
def sampleInput (status : String) : DossierInput :=
  { profile := sampleProfile status
    officers :=
      { items := [], items_per_page := 35, kind := "officer-list"
        links_self := "/company/TEST123/officers", start_index := 0, total_results := 0 }
    pscs :=
      { items := [], items_per_page := 25, kind := "psc-list"
        links := { self := "/company/TEST123/persons-with-significant-control" }
        start_index := 0, total_results := 0 }
    modernSlavery := { found := false, evidence := [] }
    evidence :=
      { profile := sampleEvidence, officers := sampleEvidence, pscs := sampleEvidence } }

/-- A minimal normalized company with the given status. -/
def sampleCompany (status : String) : Company :=
  { companyNumber := "TEST123"
    name := "TEST COMPANY LTD"
    status := status
    type := "ltd"
    incorporationDate := "2020-01-01"
    registeredOffice := { line1 := "", town := "", postcode := "", country := "" }
    sicCodes := [] }

/-- A minimal risk-engine input with the given status and statement. -/
def sampleRiskInput (status : String) (ms : Option ModernSlaveryStatement) : RiskFlagsInput :=
  { dossier :=
      { company := sampleCompany status
        officers := []
        pscs := []
        riskFlags := []
        modernSlavery := ms
        generatedAt := "2024-01-15T12:00:00.000Z" }
    rawInput := sampleInput status
    referenceDate := "2024-01-15T12:00:00.000Z" }

/-- Two officers that agree on all three sort keys (date, name, role) but
differ in nationality. -/
def officerTieA : Officer :=
  { name := "SMITH, John", role := "Director", appointedOn := "2020-01-01"
    nationality := "British" }

/-- The nationality-differing twin of `officerTieA`. -/
def officerTieB : Officer :=
  { name := "SMITH, John", role := "Director", appointedOn := "2020-01-01"
    nationality := "French" }

/-- A sample fetch request for witnesses. -/
def sampleRequest : FetchRequest :=
  { source := "companies-house"
    request := "profile"
    url := "https://api.example/company/TEST123"
    ttlSeconds := 3600
    headers := none }

/-- A sample upstream response with an error status. -/
def sampleResponse : UpstreamResponse :=
  { status := 404, body := [104, 105], contentType := "application/json" }

/-- An officer appointed earlier, for the C5 witness. -/
def officerEarly : Officer :=
  { name := "ALPHA, Anna", role := "Director", appointedOn := "2020-01-01"
    nationality := "British" }

/-- An officer with the same appointment date but a larger name. -/
def officerLate : Officer :=
  { name := "BETA, Bob", role := "Director", appointedOn := "2020-01-01"
    nationality := "British" }

/-- A raw officer item with no appointment date, for the C10 witness. -/
def itemNoDate : OfficerItem :=
  { name := "SMITH, Jane", officer_role := "director" }

/-! ### Helper lemmas about the comparator primitives -/

/-- Characters with equal codepoints are equal. -/
theorem char_eq_of_toNat_eq {c d : Char} (h : c.toNat = d.toNat) : c = d :=
  Char.eq_of_val_eq (UInt32.eq_of_toBitVec_eq (by
    have h2 : c.val.toNat = d.val.toNat := h
    exact BitVec.eq_of_toNat_eq (by simpa [UInt32.toNat] using h2)))

/-- The list comparison takes only the three signum values. -/
theorem lexCmpChars_vals (l m : List Char) :
    lexCmpChars l m = -1 ∨ lexCmpChars l m = 0 ∨ lexCmpChars l m = 1 := by
  induction l generalizing m with
  | nil => cases m <;> simp [lexCmpChars]
  | cons c cs ih =>
    cases m with
    | nil => simp [lexCmpChars]
    | cons d ds =>
      by_cases h1 : c.toNat < d.toNat
      · simp [lexCmpChars, h1]
      · by_cases h2 : d.toNat < c.toNat
        · simp [lexCmpChars, h1, h2]
        · simpa [lexCmpChars, h1, h2] using ih ds

/-- The list comparison of a list with itself vanishes. -/
theorem lexCmpChars_self (l : List Char) : lexCmpChars l l = 0 := by
  induction l with
  | nil => rfl
  | cons c cs ih => simp [lexCmpChars, ih]

/-- The list comparison vanishes exactly on equal lists. -/
theorem lexCmpChars_eq_zero_iff (l m : List Char) : lexCmpChars l m = 0 ↔ l = m := by
  induction l generalizing m with
  | nil => cases m <;> simp [lexCmpChars]
  | cons c cs ih =>
    cases m with
    | nil => simp [lexCmpChars]
    | cons d ds =>
      by_cases h1 : c.toNat < d.toNat
      · have hne : c ≠ d := fun he => absurd (he ▸ h1) (lt_irrefl _)
        simp [lexCmpChars, h1, hne]
      · by_cases h2 : d.toNat < c.toNat
        · have hne : c ≠ d := fun he => absurd (he ▸ h2) (lt_irrefl _)
          simp [lexCmpChars, h1, h2, hne]
        · have he : c = d := char_eq_of_toNat_eq (Nat.le_antisymm (Nat.not_lt.mp h2) (Nat.not_lt.mp h1))
          simp [lexCmpChars, h1, h2, ih, he]

/-- The list comparison is antisymmetric in signum form. -/
theorem lexCmpChars_antisymm (l m : List Char) : lexCmpChars l m = - lexCmpChars m l := by
  induction l generalizing m with
  | nil => cases m <;> simp [lexCmpChars]
  | cons c cs ih =>
    cases m with
    | nil => simp [lexCmpChars]
    | cons d ds =>
      by_cases h1 : c.toNat < d.toNat
      · have h2 : ¬ d.toNat < c.toNat := by omega
        simp [lexCmpChars, h1, h2]
      · by_cases h2 : d.toNat < c.toNat
        · simp [lexCmpChars, h1, h2]
        · simp [lexCmpChars, h1, h2, ih]

/-- Strict descent composes through the list comparison. -/
theorem lexCmpChars_neg_trans {a b c : List Char} :
    lexCmpChars a b = -1 → lexCmpChars b c = -1 → lexCmpChars a c = -1 := by
  induction a generalizing b c with
  | nil =>
    intro h1 h2
    cases c with
    | nil =>
      cases b with
      | nil => simp [lexCmpChars] at h2
      | cons y ys => simp [lexCmpChars] at h2
    | cons z zs => simp [lexCmpChars]
  | cons x xs ih =>
    intro h1 h2
    cases b with
    | nil => simp [lexCmpChars] at h1
    | cons y ys =>
      cases c with
      | nil => simp [lexCmpChars] at h2
      | cons z zs =>
        by_cases hxy : x.toNat < y.toNat <;> by_cases hyz : y.toNat < z.toNat
        · have hxz : x.toNat < z.toNat := lt_trans hxy hyz
          simp [lexCmpChars, hxz]
        · by_cases hzy : z.toNat < y.toNat
          · simp [lexCmpChars, hyz, hzy] at h2
          · have hyzeq : y.toNat = z.toNat := by omega
            have hxz : x.toNat < z.toNat := by omega
            simp [lexCmpChars, hxz]
        · by_cases hyx : y.toNat < x.toNat
          · simp [lexCmpChars, hxy, hyx] at h1
          · have hxyeq : x.toNat = y.toNat := by omega
            have hxz : x.toNat < z.toNat := by omega
            simp [lexCmpChars, hxz]
        · by_cases hyx : y.toNat < x.toNat
          · simp [lexCmpChars, hxy, hyx] at h1
          · by_cases hzy : z.toNat < y.toNat
            · simp [lexCmpChars, hyz, hzy] at h2
            · have hxz1 : ¬ x.toNat < z.toNat := by omega
              have hxz2 : ¬ z.toNat < x.toNat := by omega
              have ht1 : lexCmpChars xs ys = -1 := by
                simpa [lexCmpChars, hxy, hyx] using h1
              have ht2 : lexCmpChars ys zs = -1 := by
                simpa [lexCmpChars, hyz, hzy] using h2
              simpa [lexCmpChars, hxz1, hxz2] using ih ht1 ht2

/-- Comparison against the empty list on the right is never negative. -/
theorem lexCmpChars_nil_right (l : List Char) :
    lexCmpChars l [] = if l = [] then 0 else 1 := by
  cases l <;> simp [lexCmpChars]

/-- The string comparison takes only the three signum values. -/
theorem strCmp_vals (a b : String) : strCmp a b = -1 ∨ strCmp a b = 0 ∨ strCmp a b = 1 :=
  lexCmpChars_vals a.data b.data

/-- The string comparison of a string with itself vanishes. -/
theorem strCmp_self (a : String) : strCmp a a = 0 :=
  lexCmpChars_self a.data

/-- The string comparison vanishes exactly on equal strings. -/
theorem strCmp_eq_zero_iff (a b : String) : strCmp a b = 0 ↔ a = b := by
  unfold strCmp
  rw [lexCmpChars_eq_zero_iff]
  constructor
  · intro h
    cases a with
    | mk la =>
      cases b with
      | mk lb => exact congrArg String.mk h
  · intro h
    rw [h]

/-- The string comparison is antisymmetric in signum form. -/
theorem strCmp_antisymm (a b : String) : strCmp a b = - strCmp b a :=
  lexCmpChars_antisymm a.data b.data

/-- Strict descent composes through the string comparison. -/
theorem strCmp_neg_trans {a b c : String} :
    strCmp a b = -1 → strCmp b c = -1 → strCmp a c = -1 :=
  lexCmpChars_neg_trans

/-- Nonpositive string comparisons compose. -/
theorem strCmp_le_trans {a b c : String} (h1 : strCmp a b ≤ 0) (h2 : strCmp b c ≤ 0) :
    strCmp a c ≤ 0 := by
  rcases strCmp_vals a b with hv | hv | hv
  · rcases strCmp_vals b c with hw | hw | hw
    · rw [strCmp_neg_trans hv hw]; omega
    · rw [← (strCmp_eq_zero_iff b c).mp hw, hv]; omega
    · omega
  · rw [(strCmp_eq_zero_iff a b).mp hv]; exact h2
  · omega

/-- A string does not compare strictly below the empty string. -/
theorem strCmp_empty_right (s : String) : strCmp s "" = if s = "" then 0 else 1 := by
  unfold strCmp
  rw [show ("" : String).data = [] from rfl, lexCmpChars_nil_right]
  by_cases h : s = ""
  · simp [h]
  · have hd : s.data ≠ [] := by
      intro hdata
      apply h
      cases s with
      | mk l => exact congrArg String.mk hdata
    simp [h, hd]

/-- The empty string compares strictly below every non-empty string. -/
theorem strCmp_empty_left (s : String) (h : s ≠ "") : strCmp "" s = -1 := by
  have := strCmp_antisymm ("") s
  rw [strCmp_empty_right s] at this
  simp [h] at this
  omega

/-- Characterization of the officer order: lexicographic in appointment
date, then name, then role, in comparator signum form. -/
theorem officerLE_iff (a b : Officer) :
    officerLE a b ↔
      (strCmp a.appointedOn b.appointedOn = -1 ∨
        (a.appointedOn = b.appointedOn ∧
          (strCmp a.name b.name = -1 ∨
            (a.name = b.name ∧ strCmp a.role b.role ≤ 0)))) := by
  unfold officerLE compareOfficers compareStrings
  rcases strCmp_vals a.appointedOn b.appointedOn with h | h | h
  · simp [h]
  · have he : a.appointedOn = b.appointedOn := (strCmp_eq_zero_iff _ _).mp h
    rcases strCmp_vals a.name b.name with hn | hn | hn
    · simp [h, hn, he, strCmp_self]
    · have hne : a.name = b.name := (strCmp_eq_zero_iff _ _).mp hn
      simp [h, hn, he, hne, strCmp_self]
    · have hne : a.name ≠ b.name := fun hh => by simp [hh, strCmp_self] at hn
      simp [h, hn, he, hne, strCmp_self]
  · have hne : a.appointedOn ≠ b.appointedOn := fun hh => by simp [hh, strCmp_self] at h
    simp [h, hne]

/-- The officer order is total. -/
theorem officerLE_total : IsTotal Officer officerLE :=
  ⟨fun a b => by
    rcases strCmp_vals a.appointedOn b.appointedOn with h | h | h
    · exact Or.inl ((officerLE_iff a b).mpr (Or.inl h))
    · have he : a.appointedOn = b.appointedOn := (strCmp_eq_zero_iff _ _).mp h
      rcases strCmp_vals a.name b.name with hn | hn | hn
      · exact Or.inl ((officerLE_iff a b).mpr (Or.inr ⟨he, Or.inl hn⟩))
      · have hne : a.name = b.name := (strCmp_eq_zero_iff _ _).mp hn
        rcases strCmp_vals a.role b.role with hr | hr | hr
        · exact Or.inl ((officerLE_iff a b).mpr (Or.inr ⟨he, Or.inr ⟨hne, by omega⟩⟩))
        · exact Or.inl ((officerLE_iff a b).mpr (Or.inr ⟨he, Or.inr ⟨hne, by omega⟩⟩))
        · have hr2 : strCmp b.role a.role ≤ 0 := by
            have := strCmp_antisymm a.role b.role
            omega
          exact Or.inr ((officerLE_iff b a).mpr (Or.inr ⟨he.symm, Or.inr ⟨hne.symm, hr2⟩⟩))
      · have hn2 : strCmp b.name a.name = -1 := by
          have := strCmp_antisymm a.name b.name
          omega
        exact Or.inr ((officerLE_iff b a).mpr (Or.inr ⟨he.symm, Or.inl hn2⟩))
    · have h2 : strCmp b.appointedOn a.appointedOn = -1 := by
        have := strCmp_antisymm a.appointedOn b.appointedOn
        omega
      exact Or.inr ((officerLE_iff b a).mpr (Or.inl h2))⟩

/-- The officer order is transitive. -/
theorem officerLE_trans : IsTrans Officer officerLE :=
  ⟨fun a b c hab hbc => by
    rw [officerLE_iff] at hab hbc ⊢
    rcases hab with h1 | ⟨e1, h1⟩ <;> rcases hbc with h2 | ⟨e2, h2⟩
    · exact Or.inl (strCmp_neg_trans h1 h2)
    · exact Or.inl (e2 ▸ h1)
    · exact Or.inl (e1 ▸ h2)
    · refine Or.inr ⟨e1.trans e2, ?_⟩
      rcases h1 with hn1 | ⟨en1, hr1⟩ <;> rcases h2 with hn2 | ⟨en2, hr2⟩
      · exact Or.inl (strCmp_neg_trans hn1 hn2)
      · exact Or.inl (en2 ▸ hn1)
      · exact Or.inl (en1 ▸ hn2)
      · exact Or.inr ⟨en1.trans en2, strCmp_le_trans hr1 hr2⟩⟩

/-- The flag-id order is total. -/
theorem flagLE_total : IsTotal RiskFlag flagLE :=
  ⟨fun a b => by
    unfold flagLE
    have := strCmp_antisymm a.id b.id
    rcases strCmp_vals a.id b.id with h | h | h <;> omega⟩

/-- The flag-id order is transitive. -/
theorem flagLE_trans : IsTrans RiskFlag flagLE :=
  ⟨fun a b c hab hbc => strCmp_le_trans hab hbc⟩

/-! ### Cache behaviour lemmas -/

/-- After `setCacheEntry`, a lookup of the same key before expiry finds
exactly the stored row. -/
theorem getCacheEntry_after_set (store : List CacheEntry) (p : SetCacheParams)
    (now now2 : Nat) (h : now2 < now + p.ttlSeconds * 1000) :
    getCacheEntry (setCacheEntry store p now) p.cacheKey now2 =
      some { cache_key := p.cacheKey, source := p.source, request := p.request
             url := p.url, status := p.status, body := p.body
             content_type := p.contentType, headers := p.headers
             created_at := now, expires_at := now + p.ttlSeconds * 1000 } := by
  unfold getCacheEntry setCacheEntry
  rw [List.find?_append]
  have hnone : (store.filter fun e => e.cache_key ≠ p.cacheKey).find?
      (fun e => e.cache_key == p.cacheKey && decide (now2 < e.expires_at)) = none := by
    rw [List.find?_eq_none]
    intro x hx
    have hne : x.cache_key ≠ p.cacheKey := by simpa using (List.mem_filter.mp hx).2
    simp [hne]
  rw [hnone]
  simp [h]

/-- On a cache miss with a resolving fetch, `getOrFetchRaw` stores the
response and returns it with `hit = false`. -/
theorem getOrFetchRaw_miss_ok (store : List CacheEntry) (params : FetchRequest) (now : Nat)
    (r : UpstreamResponse)
    (hmiss : getCacheEntry store (requestCacheKey params) now = none) :
    getOrFetchRaw store params now (Except.ok r) =
      { result := Except.ok
          { status := r.status, body := r.body, contentType := r.contentType
            cacheKey := requestCacheKey params, hit := false }
        store := setCacheEntry store
          { cacheKey := requestCacheKey params, source := params.source
            request := params.request, url := params.url, status := r.status
            body := r.body, contentType := r.contentType
            headers := params.headers.map headersJson
            ttlSeconds := params.ttlSeconds } now
        invoked := true } := by
  simp [getOrFetchRaw, hmiss]

/-- C3: when the supplied fetch function throws during a cache miss, the
error propagates to the caller of `getOrFetchRaw` and the cache store is
returned unchanged — no entry is written for the key. -/
theorem fetch_error_not_cached (store : List CacheEntry) (params : FetchRequest)
    (now : Nat) (e : String)
    (hmiss : getCacheEntry store (requestCacheKey params) now = none) :
    getOrFetchRaw store params now (Except.error e) =
      { result := Except.error e, store := store, invoked := true } := by
  simp [getOrFetchRaw, hmiss]

/-- Witness for C3 at a concrete request over the empty store. -/
theorem fetch_error_not_cached_witness :
    getCacheEntry [] (requestCacheKey sampleRequest) 1000 = none ∧
    getOrFetchRaw [] sampleRequest 1000 (Except.error ("network down")) =
      { result := Except.error ("network down"), store := [], invoked := true } :=
  ⟨rfl, fetch_error_not_cached [] sampleRequest 1000 ("network down") rfl⟩

/-- C4: two `getOrFetchRaw` calls with the same request within the TTL
invoke the fetch function exactly once — the first call invokes it, the
second does not — and the second call returns `hit = true` with a body
byte-for-byte equal to the original fetch response. -/
theorem cache_idempotent_within_ttl (store : List CacheEntry) (params : FetchRequest)
    (now₁ now₂ : Nat) (r : UpstreamResponse) (fetch₂ : Except String UpstreamResponse)
    (hmiss : getCacheEntry store (requestCacheKey params) now₁ = none)
    (httl : now₂ < now₁ + params.ttlSeconds * 1000) :
    (getOrFetchRaw store params now₁ (Except.ok r)).invoked = true ∧
    (getOrFetchRaw (getOrFetchRaw store params now₁ (Except.ok r)).store
        params now₂ fetch₂).invoked = false ∧
    (getOrFetchRaw (getOrFetchRaw store params now₁ (Except.ok r)).store
        params now₂ fetch₂).result =
      Except.ok
        { status := r.status, body := r.body, contentType := r.contentType
          cacheKey := requestCacheKey params, hit := true } := by
  rw [getOrFetchRaw_miss_ok store params now₁ r hmiss]
  have hhit := getCacheEntry_after_set store
    { cacheKey := requestCacheKey params, source := params.source
      request := params.request, url := params.url, status := r.status
      body := r.body, contentType := r.contentType
      headers := params.headers.map headersJson
      ttlSeconds := params.ttlSeconds } now₁ now₂ httl
  refine ⟨rfl, ?_, ?_⟩ <;> simp [getOrFetchRaw, hhit]

/-- Witness for C4 at a concrete request with a 404 upstream response. -/
theorem cache_idempotent_within_ttl_witness :
    getCacheEntry [] (requestCacheKey sampleRequest) 1000 = none ∧
    1500 < 1000 + sampleRequest.ttlSeconds * 1000 ∧
    ((getOrFetchRaw [] sampleRequest 1000 (Except.ok sampleResponse)).invoked = true ∧
     (getOrFetchRaw (getOrFetchRaw [] sampleRequest 1000 (Except.ok sampleResponse)).store
         sampleRequest 1500 (Except.ok sampleResponse)).invoked = false ∧
     (getOrFetchRaw (getOrFetchRaw [] sampleRequest 1000 (Except.ok sampleResponse)).store
         sampleRequest 1500 (Except.ok sampleResponse)).result =
       Except.ok
         { status := sampleResponse.status, body := sampleResponse.body
           contentType := sampleResponse.contentType
           cacheKey := requestCacheKey sampleRequest, hit := true }) :=
  ⟨rfl, by decide,
   cache_idempotent_within_ttl [] sampleRequest 1000 1500 sampleResponse
     (Except.ok sampleResponse) rfl (by decide)⟩

/-- C9: a fetch that resolves with any HTTP status, error statuses
included, is persisted — the first call returns it with `hit = false` and a
second call within the TTL returns the same status and body as a hit —
while a fetch that throws leaves the store unchanged. -/
theorem any_status_cached (store : List CacheEntry) (params : FetchRequest)
    (now₁ now₂ : Nat) (r : UpstreamResponse) (fetch₂ : Except String UpstreamResponse)
    (hmiss : getCacheEntry store (requestCacheKey params) now₁ = none)
    (httl : now₂ < now₁ + params.ttlSeconds * 1000) :
    (getOrFetchRaw store params now₁ (Except.ok r)).result =
      Except.ok
        { status := r.status, body := r.body, contentType := r.contentType
          cacheKey := requestCacheKey params, hit := false } ∧
    (getOrFetchRaw (getOrFetchRaw store params now₁ (Except.ok r)).store
        params now₂ fetch₂).result =
      Except.ok
        { status := r.status, body := r.body, contentType := r.contentType
          cacheKey := requestCacheKey params, hit := true } ∧
    (∀ msg : String,
      (getOrFetchRaw store params now₁ (Except.error msg)).store = store) := by
  rw [getOrFetchRaw_miss_ok store params now₁ r hmiss]
  have hhit := getCacheEntry_after_set store
    { cacheKey := requestCacheKey params, source := params.source
      request := params.request, url := params.url, status := r.status
      body := r.body, contentType := r.contentType
      headers := params.headers.map headersJson
      ttlSeconds := params.ttlSeconds } now₁ now₂ httl
  refine ⟨rfl, ?_, fun msg => ?_⟩ <;> simp [getOrFetchRaw, hhit, hmiss]

/-- Witness for C9 at a concrete request whose upstream status is 404. -/
theorem any_status_cached_witness :
    getCacheEntry [] (requestCacheKey sampleRequest) 1000 = none ∧
    1500 < 1000 + sampleRequest.ttlSeconds * 1000 ∧
    ((getOrFetchRaw [] sampleRequest 1000 (Except.ok sampleResponse)).result =
       Except.ok
         { status := sampleResponse.status, body := sampleResponse.body
           contentType := sampleResponse.contentType
           cacheKey := requestCacheKey sampleRequest, hit := false } ∧
     (getOrFetchRaw (getOrFetchRaw [] sampleRequest 1000 (Except.ok sampleResponse)).store
         sampleRequest 1500 (Except.ok sampleResponse)).result =
       Except.ok
         { status := sampleResponse.status, body := sampleResponse.body
           contentType := sampleResponse.contentType
           cacheKey := requestCacheKey sampleRequest, hit := true } ∧
     (∀ msg : String,
       (getOrFetchRaw [] sampleRequest 1000 (Except.error msg)).store = [])) :=
  ⟨rfl, by decide,
   any_status_cached [] sampleRequest 1000 1500 sampleResponse
     (Except.ok sampleResponse) rfl (by decide)⟩

/-- Keys agree whenever the encoded `source:request:url` strings agree. -/
theorem generateCacheKey_eq_of_encoding (p q : CacheKeyParams)
    (h : p.source ++ ":" ++ p.request ++ ":" ++ p.url =
         q.source ++ ":" ++ q.request ++ ":" ++ q.url) :
    generateCacheKey p = generateCacheKey q := by
  unfold generateCacheKey
  rw [h]

/-- C2 (amended): the cache key is a function of exactly the
`(source, request, url)` triple — neither headers nor TTL affect it — and
agreement is decided through the encoded string `source:request:url`, so
distinct triples with equal encodings share a key. -/
theorem cacheKey_function_of_triple :
    (∀ p q : FetchRequest, p.source = q.source → p.request = q.request → p.url = q.url →
       requestCacheKey p = requestCacheKey q) ∧
    (∀ p q : CacheKeyParams,
       p.source ++ ":" ++ p.request ++ ":" ++ p.url =
         q.source ++ ":" ++ q.request ++ ":" ++ q.url →
       generateCacheKey p = generateCacheKey q) := by
  constructor
  · intro p q hs hr hu
    unfold requestCacheKey
    rw [hs, hr, hu]
  · exact generateCacheKey_eq_of_encoding

/-- Witness for C2: a header-only change keeps the key, and a concrete
encoding coincidence keeps the key. -/
theorem cacheKey_function_of_triple_witness :
    requestCacheKey { sampleRequest with headers := some [(("Authorization"), ("abc"))] } =
      requestCacheKey sampleRequest ∧
    generateCacheKey { source := "a:b", request := "c", url := "d" } =
      generateCacheKey { source := "a", request := "b:c", url := "d" } :=
  ⟨cacheKey_function_of_triple.1 _ sampleRequest rfl rfl rfl,
   cacheKey_function_of_triple.2 _ _ (by decide)⟩

/-- Counterexample for C2 as stated: two requests whose triples differ in
the source field nevertheless always receive the same cache key, because the
colon-joined encodings coincide. -/
theorem generateCacheKey_collision :
    generateCacheKey { source := "a:b", request := "c", url := "d" } =
      generateCacheKey { source := "a", request := "b:c", url := "d" } ∧
    ({ source := "a:b", request := "c", url := "d" } : CacheKeyParams) ≠
      { source := "a", request := "b:c", url := "d" } :=
  ⟨generateCacheKey_eq_of_encoding _ _ (by decide), by decide⟩

/-- C1 (amended): for a fixed non-empty `generated_at` string, two builds of
the same input serialize identically regardless of the wall clock, and every
field of the built dossier other than `generatedAt` is a function of the
input alone.  The non-emptiness hypothesis is forced by the JavaScript falsy
check `generatedAt || new Date().toISOString()`, which substitutes the wall
clock for an empty `generated_at`. -/
theorem buildDossier_deterministic (input : DossierInput) (g now₁ now₂ : String)
    (hg : g ≠ "") :
    serializeDossier (buildDossier input (some g) now₁).dossier =
      serializeDossier (buildDossier input (some g) now₂).dossier ∧
    ∀ (g₁ g₂ : Option String) (m₁ m₂ : String),
      (buildDossier input g₁ m₁).dossier.company =
        (buildDossier input g₂ m₂).dossier.company ∧
      (buildDossier input g₁ m₁).dossier.officers =
        (buildDossier input g₂ m₂).dossier.officers ∧
      (buildDossier input g₁ m₁).dossier.pscs =
        (buildDossier input g₂ m₂).dossier.pscs ∧
      (buildDossier input g₁ m₁).dossier.riskFlags =
        (buildDossier input g₂ m₂).dossier.riskFlags ∧
      (buildDossier input g₁ m₁).dossier.modernSlavery =
        (buildDossier input g₂ m₂).dossier.modernSlavery := by
  constructor
  · have hd : (buildDossier input (some g) now₁).dossier =
        (buildDossier input (some g) now₂).dossier := by
      unfold buildDossier
      simp only [jsOr, if_neg hg]
    rw [hd]
  · intro g₁ g₂ m₁ m₂
    exact ⟨rfl, rfl, rfl, rfl, rfl⟩

/-- Witness for C1 at a concrete input, a concrete non-empty timestamp and
two different wall-clock readings. -/
theorem buildDossier_deterministic_witness :
    ("2024-01-15T12:00:00.000Z" : String) ≠ "" ∧
    serializeDossier
        (buildDossier (sampleInput ("active")) (some ("2024-01-15T12:00:00.000Z"))
          ("2024-03-01T00:00:00.000Z")).dossier =
      serializeDossier
        (buildDossier (sampleInput ("active")) (some ("2024-01-15T12:00:00.000Z"))
          ("2024-03-02T00:00:00.000Z")).dossier :=
  ⟨by decide,
   (buildDossier_deterministic (sampleInput ("active")) ("2024-01-15T12:00:00.000Z")
     ("2024-03-01T00:00:00.000Z") ("2024-03-02T00:00:00.000Z") (by decide)).1⟩

set_option maxRecDepth 10000 in
/-- Counterexample for C1 as stated: the empty string is a fixed
`generated_at`, yet two builds of the same input at different wall-clock
times serialize differently, because `generatedAt || new Date()...` treats
the empty string as absent. -/
theorem buildDossier_empty_generatedAt_counterexample :
    serializeDossier
        (buildDossier (sampleInput ("active")) (some "")
          ("2024-01-01T00:00:00.000Z")).dossier ≠
      serializeDossier
        (buildDossier (sampleInput ("active")) (some "")
          ("2024-01-02T00:00:00.000Z")).dossier := by
  decide

/-- C5 (amended): `sortOfficers` returns a permutation of its input that is
pairwise ordered by the (date, name, role) comparator, whose string
comparison sorts `undefined` after every defined value; in particular, for
two officers with equal appointment dates and different names the
lexicographically smaller name strictly precedes the other regardless of
input order.  The output is not independent of the input permutation when
two distinct officers agree on all three sort keys — those ties are broken
by input order (stability), as the counterexample shows. -/
theorem sortOfficers_spec (l : List Officer) :
    (sortOfficers l).Perm l ∧
    List.Sorted officerLE (sortOfficers l) ∧
    (∀ s : String, compareStrings (some s) none = -1 ∧ compareStrings none (some s) = 1) ∧
    (∀ a b : Officer, a.appointedOn = b.appointedOn → strCmp a.name b.name = -1 →
      (officerLE a b ∧ ¬ officerLE b a)) := by
  haveI := officerLE_total
  haveI := officerLE_trans
  refine ⟨List.perm_insertionSort officerLE l, List.sorted_insertionSort officerLE l,
    fun s => ⟨rfl, rfl⟩, ?_⟩
  intro a b hd hn
  constructor
  · exact (officerLE_iff a b).mpr (Or.inr ⟨hd, Or.inl hn⟩)
  · intro hba
    rcases (officerLE_iff b a).mp hba with h | ⟨e, h⟩
    · rw [hd] at h
      rw [strCmp_self] at h
      exact absurd h (by omega)
    · rcases h with hn2 | ⟨en, _⟩
      · have := strCmp_antisymm a.name b.name
        omega
      · rw [en] at hn
        rw [strCmp_self] at hn
        exact absurd hn (by omega)

/-- Witness for C5 at two concrete officers sharing an appointment date. -/
theorem sortOfficers_spec_witness :
    officerEarly.appointedOn = officerLate.appointedOn ∧
    strCmp officerEarly.name officerLate.name = -1 ∧
    ((sortOfficers [officerLate, officerEarly]).Perm [officerLate, officerEarly] ∧
     List.Sorted officerLE (sortOfficers [officerLate, officerEarly]) ∧
     (compareStrings (some ("2020-01-01")) none = -1 ∧
      compareStrings none (some ("2020-01-01")) = 1) ∧
     (officerLE officerEarly officerLate ∧ ¬ officerLE officerLate officerEarly)) :=
  ⟨rfl, by decide,
   (sortOfficers_spec [officerLate, officerEarly]).1,
   (sortOfficers_spec [officerLate, officerEarly]).2.1,
   (sortOfficers_spec [officerLate, officerEarly]).2.2.1 ("2020-01-01"),
   (sortOfficers_spec [officerLate, officerEarly]).2.2.2 officerEarly officerLate rfl (by decide)⟩

/-- Counterexample for C5 as stated: two officers agreeing on date, name
and role but differing in nationality keep their input order, so the sorted
result depends on the input permutation. -/
theorem sortOfficers_not_permutation_invariant :
    sortOfficers [officerTieA, officerTieB] = [officerTieA, officerTieB] ∧
    sortOfficers [officerTieB, officerTieA] = [officerTieB, officerTieA] ∧
    officerTieA ≠ officerTieB := by
  exact ⟨by decide, by decide, by decide⟩

/-- C7: `applyRiskFlags` returns a new dossier whose `riskFlags` is the
given flag list sorted by id (a permutation of the flags, pairwise ordered
by id) while every other field is returned unchanged; the embedding is
pure, reflecting that the input dossier is never mutated and its own
`riskFlags` stays as it was. -/
theorem applyRiskFlags_frame (d : Dossier) (flags : List RiskFlag) :
    (applyRiskFlags d flags).company = d.company ∧
    (applyRiskFlags d flags).officers = d.officers ∧
    (applyRiskFlags d flags).pscs = d.pscs ∧
    (applyRiskFlags d flags).modernSlavery = d.modernSlavery ∧
    (applyRiskFlags d flags).generatedAt = d.generatedAt ∧
    (applyRiskFlags d flags).riskFlags.Perm flags ∧
    List.Sorted flagLE (applyRiskFlags d flags).riskFlags := by
  haveI := flagLE_total
  haveI := flagLE_trans
  exact ⟨rfl, rfl, rfl, rfl, rfl,
    List.perm_insertionSort flagLE flags,
    List.sorted_insertionSort flagLE flags⟩

/-- C10: a missing `appointed_on` is normalized to the empty string, never
`undefined`; the empty string compares strictly before every non-empty date
under the comparator, and consequently in a sorted officer list (hence in
the built dossier, whose officers are exactly `sortOfficers` of the
normalized items) no officer with an empty date appears after one with a
non-empty date — missing appointment dates sort first, not last. -/
theorem missing_appointment_sorts_first (item : OfficerItem)
    (hmiss : item.appointed_on = none) :
    (normalizeOfficer item).appointedOn = "" ∧
    (∀ s : String, s ≠ "" → compareStrings (some "") (some s) = -1) ∧
    (∀ l : List Officer,
      (sortOfficers l).Pairwise (fun a b => b.appointedOn = "" → a.appointedOn = "")) ∧
    (∀ (input : DossierInput) (g : Option String) (now : String),
      (buildDossier input g now).dossier.officers =
        sortOfficers (normalizeOfficers input.officers)) := by
  refine ⟨?_, ?_, ?_, ?_⟩
  · simp [normalizeOfficer, jsOr, hmiss]
  · intro s hs
    exact strCmp_empty_left s hs
  · intro l
    haveI := officerLE_total
    haveI := officerLE_trans
    refine List.Pairwise.imp ?_ (List.sorted_insertionSort officerLE l)
    intro a b hab hb
    rcases (officerLE_iff a b).mp hab with h | ⟨e, _⟩
    · rw [hb] at h
      rw [strCmp_empty_right] at h
      by_cases ha : a.appointedOn = "" <;> simp [ha] at h
    · rw [e, hb]
  · intro input g now
    rfl

/-- Witness for C10 at a concrete dateless officer item and concrete lists. -/
theorem missing_appointment_sorts_first_witness :
    itemNoDate.appointed_on = none ∧
    ((normalizeOfficer itemNoDate).appointedOn = "" ∧
     compareStrings (some "") (some ("2020-01-01")) = -1 ∧
     (sortOfficers [officerEarly, { officerEarly with appointedOn := "" }]).Pairwise
       (fun a b => b.appointedOn = "" → a.appointedOn = "") ∧
     (buildDossier (sampleInput ("active")) none ("2024-01-01T00:00:00.000Z")).dossier.officers =
       sortOfficers (normalizeOfficers (sampleInput ("active")).officers)) :=
  ⟨rfl,
   (missing_appointment_sorts_first itemNoDate rfl).1,
   (missing_appointment_sorts_first itemNoDate rfl).2.1 _ (by decide),
   (missing_appointment_sorts_first itemNoDate rfl).2.2.1 _,
   (missing_appointment_sorts_first itemNoDate rfl).2.2.2 _ _ _⟩

/-! ### Role humanization lemmas for C8 -/

/-- The character-level split never returns the empty segment list. -/
theorem splitOnChar_ne_nil (sep : Char) (cs : List Char) : splitOnChar sep cs ≠ [] := by
  cases cs with
  | nil => simp [splitOnChar]
  | cons c rest =>
    cases h : splitOnChar sep rest with
    | nil => simp [splitOnChar, h]
    | cons w ws =>
      by_cases hc : c = sep <;> simp [splitOnChar, h, hc]

/-- Joining after consing a character onto the head segment prepends that
character to the join. -/
theorem joinWith_cons_head (x : Char) (w : List Char) (ls : List (List Char)) :
    joinWith ' ' ((x :: w) :: ls) = x :: joinWith ' ' (w :: ls) := by
  cases ls <;> simp [joinWith]

/-- The split-capitalize-join pipeline of `normalizeOfficerRole` agrees
segmentwise with the single-pass spec rendering, in both word-start
states. -/
theorem humanize_aux (cs : List Char) :
    ∃ w ws, splitOnChar '-' cs = w :: ws ∧
      joinWith ' ' ((w :: ws).map capFirst) = specTitleCasePass true cs ∧
      joinWith ' ' (w :: ws.map capFirst) = specTitleCasePass false cs := by
  induction cs with
  | nil => exact ⟨[], [], rfl, rfl, rfl⟩
  | cons c rest ih =>
    obtain ⟨w, ws, hsplit, h1, h2⟩ := ih
    by_cases hc : c = '-'
    · refine ⟨[], w :: ws, ?_, ?_, ?_⟩
      · simp [splitOnChar, hsplit, hc]
      · simpa [joinWith, capFirst, specTitleCasePass, hc] using h1
      · simpa [joinWith, capFirst, specTitleCasePass, hc] using h1
    · refine ⟨c :: w, ws, ?_, ?_, ?_⟩
      · simp [splitOnChar, hsplit, hc]
      · simpa [capFirst, joinWith_cons_head, specTitleCasePass, hc] using h2
      · simpa [capFirst, joinWith_cons_head, specTitleCasePass, hc] using h2

/-- C8: `normalizeOfficer` humanizes the raw role exactly as the spec
words it — every `-` replaced by a space and each word's first character
capitalized — and preserves `resigned_on` and the birth month and year,
while the birth day never influences the output (the normalized officer is
invariant under any change of the day). -/
theorem normalizeOfficer_spec (item : OfficerItem) :
    (normalizeOfficer item).role = specHumanizeRole item.officer_role ∧
    (normalizeOfficer item).resignedOn = item.resigned_on ∧
    (normalizeOfficer item).birthMonth = item.date_of_birth.map (·.month) ∧
    (normalizeOfficer item).birthYear = item.date_of_birth.map (·.year) ∧
    (∀ d : Option Nat,
      normalizeOfficer
          { item with
            date_of_birth := item.date_of_birth.map (fun dob => { dob with day := d }) } =
        normalizeOfficer item) := by
  refine ⟨?_, rfl, rfl, rfl, ?_⟩
  · show normalizeOfficerRole item.officer_role = specHumanizeRole item.officer_role
    unfold normalizeOfficerRole specHumanizeRole
    obtain ⟨w, ws, hsplit, h1, h2⟩ := humanize_aux item.officer_role.data
    rw [hsplit]
    exact congrArg String.mk h1
  · intro d
    cases hdob : item.date_of_birth <;> simp [normalizeOfficer, hdob]

/-! ### Rule output identification lemmas for C6 -/

/-- Rule F1 only ever emits the id `F1`. -/
theorem checkF1_id (input : RiskFlagsInput) (f : RiskFlag)
    (h : checkF1StatusNotActive input = some f) : f.id = "F1" := by
  simp only [checkF1StatusNotActive] at h
  split at h
  · cases h; rfl
  · cases h

/-- Rule F2 only ever emits the id `F2`. -/
theorem checkF2_id (input : RiskFlagsInput) (f : RiskFlag)
    (h : checkF2AccountsOverdue input = some f) : f.id = "F2" := by
  simp only [checkF2AccountsOverdue] at h
  split at h
  · cases h; rfl
  · cases h

/-- Rule F3 only ever emits the id `F3`. -/
theorem checkF3_id (input : RiskFlagsInput) (f : RiskFlag)
    (h : checkF3ConfirmationStatementOverdue input = some f) : f.id = "F3" := by
  simp only [checkF3ConfirmationStatementOverdue] at h
  split at h
  · cases h; rfl
  · cases h

/-- Rule F4 only ever emits the id `F4`. -/
theorem checkF4_id (input : RiskFlagsInput) (f : RiskFlag)
    (h : checkF4InsolvencyIndicator input = some f) : f.id = "F4" := by
  simp only [checkF4InsolvencyIndicator] at h
  split at h
  · cases h; rfl
  · cases h

/-- Rule F5 only ever emits the id `F5`. -/
theorem checkF5_id (input : RiskFlagsInput) (f : RiskFlag)
    (h : checkF5PSCMissing input = some f) : f.id = "F5" := by
  simp only [checkF5PSCMissing] at h
  split at h
  · cases h; rfl
  · cases h

/-- Rule F6 only ever emits the id `F6`. -/
theorem checkF6_id (input : RiskFlagsInput) (cfg : Option OfficerChangesConfig) (f : RiskFlag)
    (h : checkF6FrequentOfficerChanges input cfg = some f) : f.id = "F6" := by
  simp only [checkF6FrequentOfficerChanges] at h
  split at h
  · cases h; rfl
  · cases h

/-- Rule F7 only ever emits the id `F7`. -/
theorem checkF7_id (input : RiskFlagsInput) (f : RiskFlag)
    (h : checkF7ModernSlaveryMissing input = some f) : f.id = "F7" := by
  simp only [checkF7ModernSlaveryMissing] at h
  split at h
  · cases h
  · split at h
    · cases h; rfl
    · cases h

/-- Rule F1 fires exactly on non-active statuses. -/
theorem checkF1_fires_iff (input : RiskFlagsInput) :
    (∃ f, checkF1StatusNotActive input = some f) ↔
      input.dossier.company.status ≠ "active" := by
  by_cases h : input.dossier.company.status = "active"
  · simp [checkF1StatusNotActive, h]
  · simp [checkF1StatusNotActive, h]

/-- Rule F7 fires exactly on active companies without a statement. -/
theorem checkF7_fires_iff (input : RiskFlagsInput) :
    (∃ f, checkF7ModernSlaveryMissing input = some f) ↔
      (input.dossier.company.status = "active" ∧ input.dossier.modernSlavery = none) := by
  by_cases h : input.dossier.company.status = "active"
  · cases hms : input.dossier.modernSlavery with
    | none => simp [checkF7ModernSlaveryMissing, h, hms]
    | some m => simp [checkF7ModernSlaveryMissing, h, hms]
  · simp [checkF7ModernSlaveryMissing, h]

/-- Rule F5 fires when there are no non-ceased PSCs and no statements
link. -/
theorem checkF5_fires (input : RiskFlagsInput)
    (h1 : (input.dossier.pscs.filter fun psc => !(jsTruthy psc.ceasedOn)).length = 0)
    (h2 : jsTruthy input.rawInput.pscs.links.persons_with_significant_control_statements
            = false) :
    ∃ f, checkF5PSCMissing input = some f := by
  simp [checkF5PSCMissing, h1, h2]

/-- Membership in the computed flag ids, characterized by the seven rule
outputs. -/
theorem mem_riskFlags_iff (d : Dossier) (raw : DossierInput) (ref : String)
    (cfg : RiskFlagsEngineConfig) (s : String) :
    s ∈ (computeRiskFlags d raw ref cfg).flags.map (·.id) ↔
      ∃ f : RiskFlag, f.id = s ∧
        (checkF1StatusNotActive ⟨d, raw, ref⟩ = some f ∨
         checkF2AccountsOverdue ⟨d, raw, ref⟩ = some f ∨
         checkF3ConfirmationStatementOverdue ⟨d, raw, ref⟩ = some f ∨
         checkF4InsolvencyIndicator ⟨d, raw, ref⟩ = some f ∨
         checkF5PSCMissing ⟨d, raw, ref⟩ = some f ∨
         checkF6FrequentOfficerChanges ⟨d, raw, ref⟩ cfg.officerChanges = some f ∨
         checkF7ModernSlaveryMissing ⟨d, raw, ref⟩ = some f) := by
  unfold computeRiskFlags
  rw [List.mem_map]
  constructor
  · rintro ⟨f, hf, hid⟩
    have hf2 := ((List.perm_insertionSort flagLE _).mem_iff).mp hf
    rw [List.mem_filterMap] at hf2
    obtain ⟨o, ho, hoeq⟩ := hf2
    simp only [List.mem_cons, List.not_mem_nil, or_false] at ho
    rcases ho with rfl | rfl | rfl | rfl | rfl | rfl | rfl
    · exact ⟨f, hid, Or.inl hoeq⟩
    · exact ⟨f, hid, Or.inr (Or.inl hoeq)⟩
    · exact ⟨f, hid, Or.inr (Or.inr (Or.inl hoeq))⟩
    · exact ⟨f, hid, Or.inr (Or.inr (Or.inr (Or.inl hoeq)))⟩
    · exact ⟨f, hid, Or.inr (Or.inr (Or.inr (Or.inr (Or.inl hoeq))))⟩
    · exact ⟨f, hid, Or.inr (Or.inr (Or.inr (Or.inr (Or.inr (Or.inl hoeq)))))⟩
    · exact ⟨f, hid, Or.inr (Or.inr (Or.inr (Or.inr (Or.inr (Or.inr hoeq)))))⟩
  · rintro ⟨f, hid, hcase⟩
    refine ⟨f, ?_, hid⟩
    rw [((List.perm_insertionSort flagLE _).mem_iff)]
    rw [List.mem_filterMap]
    rcases hcase with h | h | h | h | h | h | h
    · exact ⟨_, List.mem_cons_self _ _, h⟩
    · exact ⟨_, List.mem_cons_of_mem _ (List.mem_cons_self _ _), h⟩
    · exact ⟨_, List.mem_cons_of_mem _ (List.mem_cons_of_mem _ (List.mem_cons_self _ _)), h⟩
    · exact ⟨_, List.mem_cons_of_mem _ (List.mem_cons_of_mem _ (List.mem_cons_of_mem _
        (List.mem_cons_self _ _))), h⟩
    · exact ⟨_, List.mem_cons_of_mem _ (List.mem_cons_of_mem _ (List.mem_cons_of_mem _
        (List.mem_cons_of_mem _ (List.mem_cons_self _ _)))), h⟩
    · exact ⟨_, List.mem_cons_of_mem _ (List.mem_cons_of_mem _ (List.mem_cons_of_mem _
        (List.mem_cons_of_mem _ (List.mem_cons_of_mem _ (List.mem_cons_self _ _))))), h⟩
    · exact ⟨_, List.mem_cons_of_mem _ (List.mem_cons_of_mem _ (List.mem_cons_of_mem _
        (List.mem_cons_of_mem _ (List.mem_cons_of_mem _ (List.mem_cons_of_mem _
          (List.mem_cons_self _ _)))))), h⟩

/-- C6: `computeRiskFlags` never emits both F1 and F7 — F1 fires exactly
when the status is not `active` while F7 fires exactly when the status is
`active` and no modern-slavery statement is present — and a dissolved
company with zero non-ceased PSCs and no PSC-statements link yields flags
containing F1 and F5 but not F7. -/
theorem riskFlags_status_gate (d : Dossier) (raw : DossierInput) (ref : String)
    (cfg : RiskFlagsEngineConfig) :
    (¬ (("F1" ∈ (computeRiskFlags d raw ref cfg).flags.map (·.id)) ∧
        ("F7" ∈ (computeRiskFlags d raw ref cfg).flags.map (·.id)))) ∧
    (("F1" ∈ (computeRiskFlags d raw ref cfg).flags.map (·.id)) ↔
      d.company.status ≠ "active") ∧
    (("F7" ∈ (computeRiskFlags d raw ref cfg).flags.map (·.id)) ↔
      (d.company.status = "active" ∧ d.modernSlavery = none)) ∧
    (d.company.status = "dissolved" →
      (d.pscs.filter fun psc => !(jsTruthy psc.ceasedOn)).length = 0 →
      jsTruthy raw.pscs.links.persons_with_significant_control_statements = false →
      ("F1" ∈ (computeRiskFlags d raw ref cfg).flags.map (·.id) ∧
       "F5" ∈ (computeRiskFlags d raw ref cfg).flags.map (·.id) ∧
       "F7" ∉ (computeRiskFlags d raw ref cfg).flags.map (·.id))) := by
  have hF1 : ("F1" ∈ (computeRiskFlags d raw ref cfg).flags.map (·.id)) ↔
      d.company.status ≠ "active" := by
    rw [mem_riskFlags_iff]
    constructor
    · rintro ⟨f, hid, h | h | h | h | h | h | h⟩
      · exact (checkF1_fires_iff ⟨d, raw, ref⟩).mp ⟨f, h⟩
      · exact absurd (hid.symm.trans (checkF2_id _ f h)) (by decide)
      · exact absurd (hid.symm.trans (checkF3_id _ f h)) (by decide)
      · exact absurd (hid.symm.trans (checkF4_id _ f h)) (by decide)
      · exact absurd (hid.symm.trans (checkF5_id _ f h)) (by decide)
      · exact absurd (hid.symm.trans (checkF6_id _ _ f h)) (by decide)
      · exact absurd (hid.symm.trans (checkF7_id _ f h)) (by decide)
    · intro hstat
      obtain ⟨f, hf⟩ := (checkF1_fires_iff ⟨d, raw, ref⟩).mpr hstat
      exact ⟨f, checkF1_id _ f hf, Or.inl hf⟩
  have hF7 : ("F7" ∈ (computeRiskFlags d raw ref cfg).flags.map (·.id)) ↔
      (d.company.status = "active" ∧ d.modernSlavery = none) := by
    rw [mem_riskFlags_iff]
    constructor
    · rintro ⟨f, hid, h | h | h | h | h | h | h⟩
      · exact absurd (hid.symm.trans (checkF1_id _ f h)) (by decide)
      · exact absurd (hid.symm.trans (checkF2_id _ f h)) (by decide)
      · exact absurd (hid.symm.trans (checkF3_id _ f h)) (by decide)
      · exact absurd (hid.symm.trans (checkF4_id _ f h)) (by decide)
      · exact absurd (hid.symm.trans (checkF5_id _ f h)) (by decide)
      · exact absurd (hid.symm.trans (checkF6_id _ _ f h)) (by decide)
      · exact (checkF7_fires_iff ⟨d, raw, ref⟩).mp ⟨f, h⟩
    · rintro ⟨hstat, hms⟩
      obtain ⟨f, hf⟩ := (checkF7_fires_iff ⟨d, raw, ref⟩).mpr ⟨hstat, hms⟩
      exact ⟨f, checkF7_id _ f hf,
        Or.inr (Or.inr (Or.inr (Or.inr (Or.inr (Or.inr hf)))))⟩
  refine ⟨?_, hF1, hF7, ?_⟩
  · rintro ⟨h1, h7⟩
    exact (hF1.mp h1) (hF7.mp h7).1
  · intro hdis hpsc hlink
    refine ⟨hF1.mpr (by rw [hdis]; decide), ?_, ?_⟩
    · rw [mem_riskFlags_iff]
      obtain ⟨f, hf⟩ := checkF5_fires ⟨d, raw, ref⟩ hpsc hlink
      exact ⟨f, checkF5_id _ f hf, Or.inr (Or.inr (Or.inr (Or.inr (Or.inl hf))))⟩
    · intro h7
      have hact := (hF7.mp h7).1
      rw [hdis] at hact
      exact absurd hact (by decide)

/-- Witness for C6 at a concrete dissolved company with no PSCs and no
statements link. -/
theorem riskFlags_status_gate_witness :
    ((sampleRiskInput ("dissolved") none).dossier.company.status = "dissolved" ∧
     ((sampleRiskInput ("dissolved") none).dossier.pscs.filter
        fun psc => !(jsTruthy psc.ceasedOn)).length = 0 ∧
     jsTruthy (sampleInput ("dissolved")).pscs.links.persons_with_significant_control_statements
       = false) ∧
    ("F1" ∈ (computeRiskFlags (sampleRiskInput ("dissolved") none).dossier
        (sampleInput ("dissolved")) ("2024-01-15T12:00:00.000Z")
        defaultEngineConfig).flags.map (·.id) ∧
     "F5" ∈ (computeRiskFlags (sampleRiskInput ("dissolved") none).dossier
        (sampleInput ("dissolved")) ("2024-01-15T12:00:00.000Z")
        defaultEngineConfig).flags.map (·.id) ∧
     "F7" ∉ (computeRiskFlags (sampleRiskInput ("dissolved") none).dossier
        (sampleInput ("dissolved")) ("2024-01-15T12:00:00.000Z")
        defaultEngineConfig).flags.map (·.id)) :=
  ⟨⟨rfl, rfl, rfl⟩,
   (riskFlags_status_gate (sampleRiskInput ("dissolved") none).dossier
     (sampleInput ("dissolved")) ("2024-01-15T12:00:00.000Z")
     defaultEngineConfig).2.2.2 rfl rfl rfl⟩
